import Mathlib

/-
Verification development for the kube-fuse in-memory filesystem engine
(src/kubefuse.rs).  The engine projects cluster namespaces and configmaps
onto a synthetic read-only directory tree served through a kernel-style
filesystem protocol (init / lookup / getattr / readdir / read).

Shallow embedding conventions:
* `u64` inode numbers become `Nat`; the `i64` protocol offsets become `Int`,
  and the Rust `offset as usize` reinterpretation is modelled explicitly as
  `(offset.emod (2 ^ 64)).toNat`.  `usize` additions that may wrap are taken
  `% 2 ^ 64` (release-mode wrapping semantics).
* The Rust `HashMap`s (inode table, directory child maps) are modelled as
  association lists with insert-or-replace semantics; iteration order is
  fixed to insertion order, which realises the unspecified `HashMap`
  iteration order deterministically.
* `SystemTime` values are seconds since the epoch as `Nat`.
* The cluster resource client (an external collaborator, `client_rs`) is a
  record of response values: the namespace list result and a function from
  namespace name to configmap list result, each an `Except` mirroring
  `Result<_, connectivity error>`.  The yaml serialization produced by the
  external `serde_yaml` crate is carried as a field of each fetched object
  (`serde_yaml::to_string(..).unwrap_or_default().into_bytes()`), since the
  serializer itself is outside this repository.
-/

namespace KubeFuse

/-- Association-list find, modelling `HashMap::get`. -/
def kvFind {α β : Type} [DecidableEq α] (k : α) : List (α × β) → Option β
  | [] => none
  | (k', v) :: rest => if k = k' then some v else kvFind k rest

/-- Association-list insert-or-replace, modelling `HashMap::insert`; a new
key is appended, so iteration order is insertion order. -/
def kvInsert {α β : Type} [DecidableEq α] (k : α) (v : β) : List (α × β) → List (α × β)
  | [] => [(k, v)]
  | (k', v') :: rest => if k = k' then (k, v) :: rest else (k', v') :: kvInsert k v rest

theorem kvFind_kvInsert {α β : Type} [DecidableEq α] (k a : α) (v : β) (l : List (α × β)) :
    kvFind k (kvInsert a v l) = if k = a then some v else kvFind k l := by
  induction l with
  | nil => simp [kvFind, kvInsert]
  | cons p rest ih =>
    obtain ⟨b, w⟩ := p
    by_cases hab : a = b
    · subst hab
      by_cases hk : k = a
      · subst hk
        simp [kvFind, kvInsert]
      · simp [kvFind, kvInsert, hk]
    · by_cases hk : k = b
      · subst hk
        have hka : ¬ k = a := fun h => hab h.symm
        simp [kvFind, kvInsert, hab, hka]
      · simp [kvFind, kvInsert, hab, hk, ih]

theorem mem_kvInsert {α β : Type} [DecidableEq α] {p : α × β} {a : α} {v : β}
    {l : List (α × β)} (h : p ∈ kvInsert a v l) : p = (a, v) ∨ p ∈ l := by
  induction l with
  | nil => simpa [kvInsert] using h
  | cons q rest ih =>
    obtain ⟨b, w⟩ := q
    by_cases hab : a = b
    · subst hab
      simp only [kvInsert, eq_self_iff_true, if_true] at h
      rcases List.mem_cons.mp h with h | h
      · exact Or.inl h
      · exact Or.inr (List.mem_cons_of_mem _ h)
    · simp only [kvInsert] at h
      rw [if_neg hab] at h
      rcases List.mem_cons.mp h with h | h
      · exact Or.inr (h ▸ List.mem_cons_self _ _)
      · rcases ih h with h' | h'
        · exact Or.inl h'
        · exact Or.inr (List.mem_cons_of_mem _ h')

theorem kvFind_mem {α β : Type} [DecidableEq α] {k : α} {v : β} {l : List (α × β)}
    (h : kvFind k l = some v) : (k, v) ∈ l := by
  induction l with
  | nil => simp [kvFind] at h
  | cons p rest ih =>
    obtain ⟨b, w⟩ := p
    by_cases hk : k = b
    · subst hk
      simp only [kvFind, eq_self_iff_true, if_true] at h
      injection h with h
      rw [← h]
      exact List.mem_cons_self _ _
    · simp only [kvFind] at h
      rw [if_neg hk] at h
      exact List.mem_cons_of_mem _ (ih h)

theorem kvFind_isSome_kvInsert {α β : Type} [DecidableEq α] {k a : α} {v : β}
    {l : List (α × β)} (h : (kvFind k l).isSome = true) :
    (kvFind k (kvInsert a v l)).isSome = true := by
  rw [kvFind_kvInsert]
  by_cases hk : k = a <;> simp [hk, h]

/-- `fuser::FileType`; the engine only ever uses these two variants. -/
inductive FileType : Type
  | Directory : FileType
  | RegularFile : FileType
deriving DecidableEq, Repr

/-- `fuser::FileAttr`, with timestamps as seconds since the epoch. -/
structure FileAttr : Type where
  ino : Nat
  size : Nat
  blocks : Nat
  atime : Nat
  mtime : Nat
  ctime : Nat
  crtime : Nat
  kind : FileType
  perm : Nat
  nlink : Nat
  uid : Nat
  gid : Nat
  rdev : Nat
  flags : Nat
  blksize : Nat
deriving DecidableEq, Repr

/-- `enum NodeContent { Bytes(Vec<u8>), Children(HashMap<String, u64>) }`. -/
inductive NodeContent : Type
  | Bytes : List Nat → NodeContent
  | Children : List (String × Nat) → NodeContent
deriving DecidableEq, Repr

/-- `struct Node { name, attrs, content }`. -/
structure Node : Type where
  name : String
  attrs : FileAttr
  content : NodeContent
deriving DecidableEq, Repr

/-- `type NodeChildren = HashMap<String, u64>` as an insertion-ordered list. -/
abbrev NodeChildren : Type := List (String × Nat)

/-- `type InodeTable = HashMap<u64, Node>` as an insertion-ordered list. -/
abbrev InodeTable : Type := List (Nat × Node)

/-- `const BLOCK_SIZE: u32 = 512`. -/
def BLOCK_SIZE : Nat := 512

/-- `const TTL: Duration = Duration::from_secs(1)`, in seconds. -/
def TTL : Nat := 1

/-- `const ROOT_ATTR: FileAttr`. -/
def ROOT_ATTR : FileAttr :=
  { ino := 1, size := 0, blocks := 0
    atime := 0, mtime := 0, ctime := 0, crtime := 0
    kind := FileType.Directory, perm := 0o755, nlink := 2
    uid := 1000, gid := 1000, rdev := 0, flags := 0, blksize := BLOCK_SIZE }

/-- `u64::div_ceil` as used for the block count. -/
def div_ceil (a b : Nat) : Nat := a / b + (if a % b = 0 then 0 else 1)

/-- Metadata of a fetched cluster object: `metadata.name` and
`metadata.creation_timestamp` (the latter as `timestamp()` seconds, `i64`). -/
structure ObjectMeta : Type where
  name : Option String
  creation_timestamp : Option Int
deriving DecidableEq, Repr

/-- A fetched cluster object (namespace or configmap).  `yaml` carries the
bytes produced for it by the external serializer,
`serde_yaml::to_string(..).unwrap_or_default().into_bytes()`. -/
structure KubeObject : Type where
  metadata : ObjectMeta
  yaml : List Nat
deriving DecidableEq, Repr

/-- The `CoreV1Client` collaborator, reduced to the responses the engine
consumes: `namespaces().list()` and `configmaps(ns).list()` item lists. -/
structure CoreV1Client : Type where
  namespacesList : Except Unit (List KubeObject)
  configmapsList : String → Except Unit (List KubeObject)

/-- The creation-time computation shared by namespace and configmap nodes:
`t.timestamp().try_into().ok().map(|s| UNIX_EPOCH + s).unwrap_or(UNIX_EPOCH)`;
`i64 → u64` conversion fails exactly on negative values. -/
def creationTime : Option Int → Nat
  | none => 0
  | some t => if 0 ≤ t then t.toNat else 0

/-- Protocol error replies: `libc::{ENOENT, ENOTDIR, EISDIR, EIO}`. -/
inductive FsError : Type
  | ENOENT : FsError
  | ENOTDIR : FsError
  | EISDIR : FsError
  | EIO : FsError
deriving DecidableEq, Repr

/-- Decidable equality for `Except` results (not provided by core). -/
instance exceptDecidableEq {ε α : Type} [DecidableEq ε] [DecidableEq α] :
    DecidableEq (Except ε α)
  | Except.ok x, Except.ok y =>
    if h : x = y then isTrue (congrArg Except.ok h)
    else isFalse (fun hc => h (Except.ok.inj hc))
  | Except.ok _, Except.error _ => isFalse (fun hc => Except.noConfusion hc)
  | Except.error _, Except.ok _ => isFalse (fun hc => Except.noConfusion hc)
  | Except.error e, Except.error f =>
    if h : e = f then isTrue (congrArg Except.error h)
    else isFalse (fun hc => h (Except.error.inj hc))

/-- The engine state: the inode table and the atomic inode counter.  The
`core_client` field of the Rust struct is passed explicitly to the functions
that use it. -/
structure KubeFilesystem : Type where
  inodes : InodeTable
  inode_counter : Nat
deriving DecidableEq, Repr

/-- `KubeFilesystem::new`: empty table, counter starting at 2. -/
def KubeFilesystem.new : KubeFilesystem := { inodes := [], inode_counter := 2 }

/-- `self.inodes.get(&ino)`. -/
def findNode (t : InodeTable) (ino : Nat) : Option Node := kvFind ino t

/-- The namespace directory node built by
`KubeFilesystem::create_namespace_node` (kubefuse.rs lines 95-115). -/
def ns_dir_node (ns : KubeObject) (inode manifest_ino : Nat) : Node :=
  { name := ns.metadata.name.getD ""
    attrs :=
      { ino := inode, size := 0, blocks := 0
        atime := creationTime ns.metadata.creation_timestamp
        mtime := creationTime ns.metadata.creation_timestamp
        ctime := creationTime ns.metadata.creation_timestamp
        crtime := creationTime ns.metadata.creation_timestamp
        kind := FileType.Directory, perm := 0o755, nlink := 2
        uid := 1000, gid := 1000, rdev := 0, flags := 0, blksize := BLOCK_SIZE }
    content := NodeContent.Children (kvInsert "manifest.yaml" manifest_ino []) }

/-- The `manifest.yaml` regular-file node built by
`KubeFilesystem::create_namespace_node` (lines 118-142). -/
def ns_manifest_node (ns : KubeObject) (manifest_ino : Nat) : Node :=
  { name := "manifest.yaml"
    attrs :=
      { ino := manifest_ino, size := ns.yaml.length
        blocks := div_ceil ns.yaml.length BLOCK_SIZE
        atime := creationTime ns.metadata.creation_timestamp
        mtime := creationTime ns.metadata.creation_timestamp
        ctime := creationTime ns.metadata.creation_timestamp
        crtime := creationTime ns.metadata.creation_timestamp
        kind := FileType.RegularFile, perm := 0o444, nlink := 1
        uid := 1000, gid := 1000, rdev := 0, flags := 0, blksize := BLOCK_SIZE }
    content := NodeContent.Bytes ns.yaml }

/-- `KubeFilesystem::create_namespace_node(inode, namespace)` (lines 82-144):
allocates the `manifest.yaml` inode, inserts the namespace directory node at
`inode` and the manifest regular-file node at the allocated inode. -/
def create_namespace_node (fs : KubeFilesystem) (inode : Nat) (ns : KubeObject) :
    KubeFilesystem :=
  let manifest_ino := fs.inode_counter
  let fs1 : KubeFilesystem := { fs with inode_counter := fs.inode_counter + 1 }
  let fs2 : KubeFilesystem :=
    { fs1 with inodes := kvInsert inode (ns_dir_node ns inode manifest_ino) fs1.inodes }
  { fs2 with inodes := kvInsert manifest_ino (ns_manifest_node ns manifest_ino) fs2.inodes }

/-- `KubeFilesystem::namespace_inode(namespace)` (lines 146-154): the root's
child entry for `ns`; `None` when the root is missing or is a file.  (The
Rust method reads only `self.inodes`, so the model takes the table.) -/
def namespaceInode (t : InodeTable) (ns : String) : Option Nat :=
  match findNode t 1 with
  | none => none
  | some root =>
    match root.content with
    | NodeContent.Children children => kvFind ns children
    | NodeContent.Bytes _ => none

/-- The `<name>.yaml` configmap regular-file node built inside the loop of
`create_configmaps_node` (lines 231-254). -/
def cm_file_node (item : KubeObject) (nm : String) (cm_ino : Nat) : Node :=
  { name := nm ++ ".yaml"
    attrs :=
      { ino := cm_ino, size := item.yaml.length
        blocks := div_ceil item.yaml.length BLOCK_SIZE
        atime := creationTime item.metadata.creation_timestamp
        mtime := creationTime item.metadata.creation_timestamp
        ctime := creationTime item.metadata.creation_timestamp
        crtime := creationTime item.metadata.creation_timestamp
        kind := FileType.RegularFile, perm := 0o444, nlink := 1
        uid := 1000, gid := 1000, rdev := 0, flags := 0, blksize := BLOCK_SIZE }
    content := NodeContent.Bytes item.yaml }

/-- The `configmaps` directory node of `create_configmaps_node` (lines
173-193); `now` models `SystemTime::now()`. -/
def configmaps_dir_node (configmaps_inode now : Nat) : Node :=
  { name := "configmaps"
    attrs :=
      { ino := configmaps_inode, size := 0, blocks := 0
        atime := now, mtime := now, ctime := now, crtime := now
        kind := FileType.Directory, perm := 0o755, nlink := 2
        uid := 1000, gid := 1000, rdev := 0, flags := 0, blksize := BLOCK_SIZE }
    content := NodeContent.Children [] }

/-- The loop body of `create_configmaps_node` over `resp.items` (lines
202-255).  The second component is the `cm_node` being accumulated; `none`
models the early `return` taken when `cm_node` is found to be a file, which
skips the final insertion of `cm_node` (dead code, since `cm_node` is
constructed with `Children` content). -/
def cm_items_loop : KubeFilesystem → Node → List KubeObject → KubeFilesystem × Option Node
  | fs, cmNode, [] => (fs, some cmNode)
  | fs, cmNode, item :: rest =>
    match item.metadata.name with
    | none => cm_items_loop fs cmNode rest
    | some nm =>
      let cm_ino := fs.inode_counter
      let fs1 : KubeFilesystem := { fs with inode_counter := fs.inode_counter + 1 }
      match cmNode.content with
      | NodeContent.Bytes _ => (fs1, none)
      | NodeContent.Children children =>
        let cmNode' : Node :=
          { cmNode with content :=
              NodeContent.Children (kvInsert (nm ++ ".yaml") cm_ino children) }
        cm_items_loop
          { fs1 with inodes := kvInsert cm_ino (cm_file_node item nm cm_ino) fs1.inodes }
          cmNode' rest

/-- `KubeFilesystem::create_configmaps_node(namespace)` (lines 161-260).
Allocates the `configmaps` inode, bails out (with the counter already
advanced) when the namespace node or its child map cannot be found, and
otherwise registers `configmaps` in the namespace's children, fetches the
configmap list — a fetch failure is only logged — and finally inserts the
`configmaps` directory node.  `now` models `SystemTime::now()`. -/
def create_configmaps_node (client : CoreV1Client) (now : Nat) (fs : KubeFilesystem)
    (ns : String) : KubeFilesystem :=
  let configmaps_inode := fs.inode_counter
  let fs1 : KubeFilesystem := { fs with inode_counter := fs.inode_counter + 1 }
  match namespaceInode fs1.inodes ns with
  | none => fs1
  | some nsIno =>
    match findNode fs1.inodes nsIno with
    | none => fs1
    | some nsNode =>
      match nsNode.content with
      | NodeContent.Bytes _ => fs1
      | NodeContent.Children nsCh =>
        let cmNode : Node := configmaps_dir_node configmaps_inode now
        let nsNode' : Node :=
          { nsNode with content :=
              NodeContent.Children (kvInsert "configmaps" configmaps_inode nsCh) }
        let fs2 : KubeFilesystem :=
          { fs1 with inodes := kvInsert nsIno nsNode' fs1.inodes }
        match client.configmapsList ns with
        | Except.error _ =>
          { fs2 with inodes := kvInsert configmaps_inode cmNode fs2.inodes }
        | Except.ok items =>
          match cm_items_loop fs2 cmNode items with
          | (fs3, none) => fs3
          | (fs3, some cmNode') =>
            { fs3 with inodes := kvInsert configmaps_inode cmNode' fs3.inodes }

/-- The root node updated by `init`'s loop when it registers a namespace
(lines 290-302): the child is added and the link count bumped. -/
def root_with_child (root : Node) (nm : String) (ino : Nat) (children : NodeChildren) :
    Node :=
  { root with
      attrs := { root.attrs with nlink := root.attrs.nlink + 1 }
      content := NodeContent.Children (kvInsert nm ino children) }

/-- The per-namespace body of `init`'s loop over `resp.items` (lines
282-305): skip unnamed namespaces, allocate an inode, build the namespace
node, register it under the root (bumping the root's link count) unless the
root is missing, abort with `EIO` if the root is a file, then build the
`configmaps` subtree.  The `Option FsError` is the early `Err` result. -/
def initLoop (client : CoreV1Client) (now : Nat) :
    KubeFilesystem → List KubeObject → KubeFilesystem × Option FsError
  | fs, [] => (fs, none)
  | fs, item :: rest =>
    match item.metadata.name with
    | none => initLoop client now fs rest
    | some nm =>
      let ino := fs.inode_counter
      let fs1 : KubeFilesystem := { fs with inode_counter := fs.inode_counter + 1 }
      let fs2 := create_namespace_node fs1 ino item
      match findNode fs2.inodes 1 with
      | none => initLoop client now (create_configmaps_node client now fs2 nm) rest
      | some root =>
        match root.content with
        | NodeContent.Bytes _ => (fs2, some FsError.EIO)
        | NodeContent.Children children =>
          let fs3 : KubeFilesystem :=
            { fs2 with inodes := kvInsert 1 (root_with_child root nm ino children) fs2.inodes }
          initLoop client now (create_configmaps_node client now fs3 nm) rest

/-- The root node inserted by `init` (lines 269-274). -/
def root_node : Node :=
  { name := "/", attrs := ROOT_ATTR, content := NodeContent.Children [] }

/-- `Filesystem::init` (lines 264-309): insert the root node, fetch the
namespace list — a failure is fatal (`EIO`) — and run the per-namespace
loop.  Returns the final engine state together with the error, if any. -/
def KubeFilesystem.init (client : CoreV1Client) (now : Nat) (fs : KubeFilesystem) :
    KubeFilesystem × Option FsError :=
  let fs0 : KubeFilesystem := { fs with inodes := kvInsert 1 root_node fs.inodes }
  match client.namespacesList with
  | Except.error _ => (fs0, some FsError.EIO)
  | Except.ok resp => initLoop client now fs0 resp

/-- `Filesystem::lookup` (lines 311-332): reply `(TTL, child.attrs)` or
`ENOENT`.  (`OsStr::to_str` always succeeds in the model, where names are
strings.) -/
def lookup (fs : KubeFilesystem) (parent : Nat) (name : String) :
    Except FsError (Nat × FileAttr) :=
  match findNode fs.inodes parent with
  | none => Except.error FsError.ENOENT
  | some p =>
    match p.content with
    | NodeContent.Bytes _ => Except.error FsError.ENOENT
    | NodeContent.Children children =>
      match kvFind name children with
      | none => Except.error FsError.ENOENT
      | some childIno =>
        match findNode fs.inodes childIno with
        | none => Except.error FsError.ENOENT
        | some n => Except.ok (TTL, n.attrs)

/-- `Filesystem::getattr` (lines 334-347). -/
def getattr (fs : KubeFilesystem) (ino : Nat) : Except FsError (Nat × FileAttr) :=
  match findNode fs.inodes ino with
  | none => Except.error FsError.ENOENT
  | some n => Except.ok (TTL, n.attrs)

/-- The offset numbering of `readdir`'s reply loop (lines 387-391): the
`i`-th delivered entry is tagged with next-offset `offset + i + 1`. -/
def addOffsets (offset : Int) : Nat → List (Nat × FileType × String) →
    List (Nat × Int × FileType × String)
  | _, [] => []
  | i, e :: rest => (e.1, offset + i + 1, e.2.1, e.2.2) :: addOffsets offset (i + 1) rest

/-- `Filesystem::readdir` (lines 349-394).  `cap` is the number of entries
the caller's reply buffer still accepts (`reply.add` returns `true`, ending
the loop, once the buffer is full).  The synthesized entry list is `.`,
then `..` bound to inode 1, then the children in stored order (children
missing from the table are skipped with a warning); `offset as usize`
entries are skipped. -/
def readdir (fs : KubeFilesystem) (inode : Nat) (offset : Int) (cap : Nat) :
    Except FsError (List (Nat × Int × FileType × String)) :=
  match findNode fs.inodes inode with
  | none => Except.error FsError.ENOENT
  | some node =>
    if node.attrs.kind ≠ FileType.Directory then Except.error FsError.ENOTDIR
    else
      match node.content with
      | NodeContent.Bytes _ => Except.error FsError.ENOTDIR
      | NodeContent.Children children =>
        let entries : List (Nat × FileType × String) :=
          (inode, FileType.Directory, ".") :: (1, FileType.Directory, "..") ::
            children.filterMap (fun p =>
              (findNode fs.inodes p.2).map (fun c => (p.2, c.attrs.kind, c.name)))
        Except.ok
          (addOffsets offset 0 ((entries.drop (offset.emod (2 ^ 64)).toNat).take cap))

/-- The reply of `Filesystem::read`: data, an error, or — when a node has
`RegularFile` kind but `Children` content — no reply at all (the Rust
function falls off the end without calling `reply`). -/
inductive ReadReply : Type
  | dataOf : List Nat → ReadReply
  | err : FsError → ReadReply
  | noReply : ReadReply
deriving DecidableEq, Repr

/-- `Filesystem::read` (lines 396-430): `offset as usize` and the clipped
slice `data[start..min(start + size, len)]`, empty when `start >= len`. -/
def read (fs : KubeFilesystem) (ino : Nat) (offset : Int) (size : Nat) : ReadReply :=
  match findNode fs.inodes ino with
  | none => ReadReply.err FsError.ENOENT
  | some node =>
    if node.attrs.kind ≠ FileType.RegularFile then ReadReply.err FsError.EISDIR
    else
      match node.content with
      | NodeContent.Children _ => ReadReply.noReply
      | NodeContent.Bytes d =>
        let start := (offset.emod (2 ^ 64)).toNat
        let stop := min ((start + size) % 2 ^ 64) d.length
        if d.length ≤ start then ReadReply.dataOf []
        else ReadReply.dataOf ((d.drop start).take (stop - start))

/-- Modelled from the spec: the mount transport (the external `fuser`
crate, outside this repository) aborts the mount when `init` returns an
error — "initialization is fatal ... the filesystem never becomes
queryable" — so the queryable state exists only when `init` reports no
error. -/
def mountFS (client : CoreV1Client) (now : Nat) : Option KubeFilesystem :=
  match KubeFilesystem.init client now KubeFilesystem.new with
  | (fs, none) => some fs
  | (_, some _) => none

/-- Modelled from the spec: with no mounted filesystem, no `lookup` call is
dispatched to the engine and the caller only ever sees an error. -/
def mountedLookup (m : Option KubeFilesystem) (parent : Nat) (name : String) :
    Except FsError (Nat × FileAttr) :=
  match m with
  | none => Except.error FsError.EIO
  | some fs => lookup fs parent name

/-- Modelled from the spec: with no mounted filesystem, no `getattr` call is
dispatched to the engine and the caller only ever sees an error. -/
def mountedGetattr (m : Option KubeFilesystem) (ino : Nat) :
    Except FsError (Nat × FileAttr) :=
  match m with
  | none => Except.error FsError.EIO
  | some fs => getattr fs ino

/-- Modelled from the spec: with no mounted filesystem, no `readdir` call is
dispatched to the engine and the caller only ever sees an error. -/
def mountedReaddir (m : Option KubeFilesystem) (inode : Nat) (offset : Int) (cap : Nat) :
    Except FsError (List (Nat × Int × FileType × String)) :=
  match m with
  | none => Except.error FsError.EIO
  | some fs => readdir fs inode offset cap

/-- Modelled from the spec: with no mounted filesystem, no `read` call is
dispatched to the engine and the caller only ever sees an error. -/
def mountedRead (m : Option KubeFilesystem) (ino : Nat) (offset : Int) (size : Nat) :
    ReadReply :=
  match m with
  | none => ReadReply.err FsError.EIO
  | some fs => read fs ino offset size

/-- Whether a node's content is the `Children` variant. -/
def isChildrenContent : NodeContent → Bool
  | NodeContent.Children _ => true
  | NodeContent.Bytes _ => false

/-- The child map of a node (empty for a `Bytes` node). -/
def nodeRefs (n : Node) : NodeChildren :=
  match n.content with
  | NodeContent.Children ch => ch
  | NodeContent.Bytes _ => []

/-- The byte content of a node (empty for a `Children` node). -/
def nodeBytes (n : Node) : List Nat :=
  match n.content with
  | NodeContent.Bytes d => d
  | NodeContent.Children _ => []

/-- No dangling children: every inode value in any node's child map is a key
of the table. -/
abbrev tableNoDangling (t : InodeTable) : Prop :=
  ∀ p ∈ t, ∀ q ∈ nodeRefs p.2, (findNode t q.2).isSome = true

/-- Attribute kind agrees with the content variant for every node. -/
abbrev tableKindAgrees (t : InodeTable) : Prop :=
  ∀ p ∈ t, (p.2.attrs.kind = FileType.Directory ↔ isChildrenContent p.2.content = true)

/-- Every `Bytes` node's size is its byte length and its block count is
`div_ceil size BLOCK_SIZE`. -/
abbrev tableSizeInv (t : InodeTable) : Prop :=
  ∀ p ∈ t, isChildrenContent p.2.content = false →
    p.2.attrs.size = (nodeBytes p.2).length ∧
    p.2.attrs.blocks = div_ceil (nodeBytes p.2).length BLOCK_SIZE

/-- The three structural invariants of the inode table together. -/
abbrev TableInvs (t : InodeTable) : Prop :=
  tableNoDangling t ∧ tableKindAgrees t ∧ tableSizeInv t

/-- `tableNoDangling` lifted to the engine state. -/
abbrev NoDangling (fs : KubeFilesystem) : Prop := tableNoDangling fs.inodes

/-- `tableKindAgrees` lifted to the engine state. -/
abbrev KindAgrees (fs : KubeFilesystem) : Prop := tableKindAgrees fs.inodes

theorem findNode_kvInsert (k a : Nat) (n : Node) (t : InodeTable) :
    findNode (kvInsert a n t) k = if k = a then some n else findNode t k :=
  kvFind_kvInsert k a n t

theorem findNode_isSome_kvInsert {t : InodeTable} {k : Nat} (a : Nat) (n : Node)
    (h : (findNode t k).isSome = true) : (findNode (kvInsert a n t) k).isSome = true :=
  kvFind_isSome_kvInsert h

theorem findNode_mem {t : InodeTable} {k : Nat} {n : Node}
    (h : findNode t k = some n) : (k, n) ∈ t :=
  kvFind_mem h

theorem nodeRefs_eq_nil {n : Node} (h : isChildrenContent n.content = false) :
    nodeRefs n = [] := by
  cases hc : n.content with
  | Bytes d => simp [nodeRefs, hc]
  | Children ch => rw [hc] at h; simp [isChildrenContent] at h

/-- Growth principle for `tableNoDangling`: a table extension whose key set
only grows and whose genuinely new entries have all their child references
present keeps the no-dangling invariant. -/
theorem tableNoDangling_grow {t t' : InodeTable}
    (hmono : ∀ k, (findNode t k).isSome = true → (findNode t' k).isSome = true)
    (hmem : ∀ p ∈ t', p ∈ t ∨ ∀ q ∈ nodeRefs p.2, (findNode t' q.2).isSome = true)
    (h : tableNoDangling t) : tableNoDangling t' := by
  intro p hp q hq
  rcases hmem p hp with hp' | hrefs
  · exact hmono _ (h p hp' q hq)
  · exact hrefs q hq

theorem tableKindAgrees_kvInsert {t : InodeTable} {k : Nat} {n : Node}
    (h : tableKindAgrees t)
    (hn : n.attrs.kind = FileType.Directory ↔ isChildrenContent n.content = true) :
    tableKindAgrees (kvInsert k n t) := by
  intro p hp
  rcases mem_kvInsert hp with hp0 | hp1
  · rw [hp0]; exact hn
  · exact h p hp1

theorem tableSizeInv_kvInsert {t : InodeTable} {k : Nat} {n : Node}
    (h : tableSizeInv t)
    (hn : isChildrenContent n.content = false →
      n.attrs.size = (nodeBytes n).length ∧
      n.attrs.blocks = div_ceil (nodeBytes n).length BLOCK_SIZE) :
    tableSizeInv (kvInsert k n t) := by
  intro p hp hcc
  rcases mem_kvInsert hp with hp0 | hp1
  · rw [hp0] at hcc ⊢; exact hn hcc
  · exact h p hp1 hcc

theorem create_namespace_node_eq (fs : KubeFilesystem) (ino : Nat) (ns : KubeObject) :
    create_namespace_node fs ino ns =
      { inodes :=
          kvInsert fs.inode_counter (ns_manifest_node ns fs.inode_counter)
            (kvInsert ino (ns_dir_node ns ino fs.inode_counter) fs.inodes)
        inode_counter := fs.inode_counter + 1 } := rfl

theorem cm_items_loop_cons_none {fs : KubeFilesystem} {cmNode : Node}
    {item : KubeObject} {rest : List KubeObject} (h : item.metadata.name = none) :
    cm_items_loop fs cmNode (item :: rest) = cm_items_loop fs cmNode rest := by
  simp only [cm_items_loop, h]

theorem cm_items_loop_cons_children {fs : KubeFilesystem} {cmNode : Node}
    {item : KubeObject} {rest : List KubeObject} {nm : String} {ch : NodeChildren}
    (hn : item.metadata.name = some nm) (hc : cmNode.content = NodeContent.Children ch) :
    cm_items_loop fs cmNode (item :: rest) =
      cm_items_loop
        { inodes := kvInsert fs.inode_counter (cm_file_node item nm fs.inode_counter) fs.inodes
          inode_counter := fs.inode_counter + 1 }
        { cmNode with content :=
            NodeContent.Children (kvInsert (nm ++ ".yaml") fs.inode_counter ch) }
        rest := by
  simp only [cm_items_loop, hn, hc]

theorem create_configmaps_node_none {client : CoreV1Client} {now : Nat}
    {fs : KubeFilesystem} {ns : String} (hni : namespaceInode fs.inodes ns = none) :
    create_configmaps_node client now fs ns =
      { fs with inode_counter := fs.inode_counter + 1 } := by
  simp only [create_configmaps_node, hni]

theorem create_configmaps_node_no_ns {client : CoreV1Client} {now : Nat}
    {fs : KubeFilesystem} {ns : String} {nsIno : Nat}
    (hni : namespaceInode fs.inodes ns = some nsIno)
    (hfn : findNode fs.inodes nsIno = none) :
    create_configmaps_node client now fs ns =
      { fs with inode_counter := fs.inode_counter + 1 } := by
  simp only [create_configmaps_node, hni, hfn]

theorem create_configmaps_node_ns_bytes {client : CoreV1Client} {now : Nat}
    {fs : KubeFilesystem} {ns : String} {nsIno : Nat} {nsNode : Node} {d : List Nat}
    (hni : namespaceInode fs.inodes ns = some nsIno)
    (hfn : findNode fs.inodes nsIno = some nsNode)
    (hcc : nsNode.content = NodeContent.Bytes d) :
    create_configmaps_node client now fs ns =
      { fs with inode_counter := fs.inode_counter + 1 } := by
  simp only [create_configmaps_node, hni, hfn, hcc]

theorem create_configmaps_node_err {client : CoreV1Client} {now : Nat}
    {fs : KubeFilesystem} {ns : String} {nsIno : Nat} {nsNode : Node}
    {nsCh : NodeChildren} {e : Unit}
    (hni : namespaceInode fs.inodes ns = some nsIno)
    (hfn : findNode fs.inodes nsIno = some nsNode)
    (hcc : nsNode.content = NodeContent.Children nsCh)
    (hcm : client.configmapsList ns = Except.error e) :
    create_configmaps_node client now fs ns =
      { inodes :=
          kvInsert fs.inode_counter (configmaps_dir_node fs.inode_counter now)
            (kvInsert nsIno
              { nsNode with content :=
                  NodeContent.Children (kvInsert "configmaps" fs.inode_counter nsCh) }
              fs.inodes)
        inode_counter := fs.inode_counter + 1 } := by
  simp only [create_configmaps_node, hni, hfn, hcc, hcm]

theorem create_configmaps_node_ok {client : CoreV1Client} {now : Nat}
    {fs fs3 : KubeFilesystem} {ns : String} {nsIno : Nat} {nsNode cmNode' : Node}
    {nsCh : NodeChildren} {items : List KubeObject}
    (hni : namespaceInode fs.inodes ns = some nsIno)
    (hfn : findNode fs.inodes nsIno = some nsNode)
    (hcc : nsNode.content = NodeContent.Children nsCh)
    (hcm : client.configmapsList ns = Except.ok items)
    (hloop : cm_items_loop
        { inodes :=
            kvInsert nsIno
              { nsNode with content :=
                  NodeContent.Children (kvInsert "configmaps" fs.inode_counter nsCh) }
              fs.inodes
          inode_counter := fs.inode_counter + 1 }
        (configmaps_dir_node fs.inode_counter now) items = (fs3, some cmNode')) :
    create_configmaps_node client now fs ns =
      { fs3 with inodes := kvInsert fs.inode_counter cmNode' fs3.inodes } := by
  simp only [create_configmaps_node, hni, hfn, hcc, hcm, hloop]

theorem initLoop_cons_none {client : CoreV1Client} {now : Nat} {fs : KubeFilesystem}
    {item : KubeObject} {rest : List KubeObject} (hn : item.metadata.name = none) :
    initLoop client now fs (item :: rest) = initLoop client now fs rest := by
  simp only [initLoop, hn]

theorem initLoop_cons_root_none {client : CoreV1Client} {now : Nat}
    {fs fs2 : KubeFilesystem} {item : KubeObject} {rest : List KubeObject} {nm : String}
    (hn : item.metadata.name = some nm)
    (hfs2 : create_namespace_node { fs with inode_counter := fs.inode_counter + 1 }
      fs.inode_counter item = fs2)
    (hr : findNode fs2.inodes 1 = none) :
    initLoop client now fs (item :: rest) =
      initLoop client now (create_configmaps_node client now fs2 nm) rest := by
  simp only [initLoop, hn, hfs2, hr]

theorem initLoop_cons_root_bytes {client : CoreV1Client} {now : Nat}
    {fs fs2 : KubeFilesystem} {item : KubeObject} {rest : List KubeObject} {nm : String}
    {root : Node} {d : List Nat}
    (hn : item.metadata.name = some nm)
    (hfs2 : create_namespace_node { fs with inode_counter := fs.inode_counter + 1 }
      fs.inode_counter item = fs2)
    (hr : findNode fs2.inodes 1 = some root)
    (hc : root.content = NodeContent.Bytes d) :
    initLoop client now fs (item :: rest) = (fs2, some FsError.EIO) := by
  simp only [initLoop, hn, hfs2, hr, hc]

theorem initLoop_cons_root_children {client : CoreV1Client} {now : Nat}
    {fs fs2 : KubeFilesystem} {item : KubeObject} {rest : List KubeObject} {nm : String}
    {root : Node} {children : NodeChildren}
    (hn : item.metadata.name = some nm)
    (hfs2 : create_namespace_node { fs with inode_counter := fs.inode_counter + 1 }
      fs.inode_counter item = fs2)
    (hr : findNode fs2.inodes 1 = some root)
    (hc : root.content = NodeContent.Children children) :
    initLoop client now fs (item :: rest) =
      initLoop client now
        (create_configmaps_node client now
          { fs2 with inodes :=
              kvInsert 1 (root_with_child root nm fs.inode_counter children) fs2.inodes }
          nm) rest := by
  simp only [initLoop, hn, hfs2, hr, hc]

theorem init_error_eq {client : CoreV1Client} {now : Nat} {fs : KubeFilesystem} {e : Unit}
    (h : client.namespacesList = Except.error e) :
    KubeFilesystem.init client now fs =
      ({ fs with inodes := kvInsert 1 root_node fs.inodes }, some FsError.EIO) := by
  simp only [KubeFilesystem.init, h]

theorem init_ok_eq {client : CoreV1Client} {now : Nat} {fs : KubeFilesystem}
    {resp : List KubeObject} (h : client.namespacesList = Except.ok resp) :
    KubeFilesystem.init client now fs =
      initLoop client now { fs with inodes := kvInsert 1 root_node fs.inodes } resp := by
  simp only [KubeFilesystem.init, h]

theorem cm_items_loop_cons_bytes {fs : KubeFilesystem} {cmNode : Node}
    {item : KubeObject} {rest : List KubeObject} {nm : String} {d : List Nat}
    (hn : item.metadata.name = some nm) (hc : cmNode.content = NodeContent.Bytes d) :
    cm_items_loop fs cmNode (item :: rest) =
      ({ fs with inode_counter := fs.inode_counter + 1 }, none) := by
  simp only [cm_items_loop, hn, hc]

theorem cm_items_loop_presence {k : Nat} :
    ∀ (items : List KubeObject) (fs : KubeFilesystem) (cmNode : Node),
      (findNode fs.inodes k).isSome = true →
      (findNode (cm_items_loop fs cmNode items).1.inodes k).isSome = true := by
  intro items
  induction items with
  | nil => intro fs cmNode h; exact h
  | cons item rest ih =>
    intro fs cmNode h
    cases hn : item.metadata.name with
    | none =>
      rw [cm_items_loop_cons_none hn]
      exact ih fs cmNode h
    | some nm =>
      cases hc : cmNode.content with
      | Bytes d =>
        rw [cm_items_loop_cons_bytes hn hc]
        exact h
      | Children ch =>
        rw [cm_items_loop_cons_children hn hc]
        exact ih _ _ (findNode_isSome_kvInsert _ _ h)

theorem cm_items_loop_counter_le :
    ∀ (items : List KubeObject) (fs : KubeFilesystem) (cmNode : Node),
      fs.inode_counter ≤ (cm_items_loop fs cmNode items).1.inode_counter := by
  intro items
  induction items with
  | nil => intro fs cmNode; exact Nat.le_refl _
  | cons item rest ih =>
    intro fs cmNode
    cases hn : item.metadata.name with
    | none =>
      rw [cm_items_loop_cons_none hn]
      exact ih fs cmNode
    | some nm =>
      cases hc : cmNode.content with
      | Bytes d =>
        rw [cm_items_loop_cons_bytes hn hc]
        exact Nat.le_succ _
      | Children ch =>
        rw [cm_items_loop_cons_children hn hc]
        refine Nat.le_trans (Nat.le_succ _) ?_
        exact ih
          { inodes := kvInsert fs.inode_counter (cm_file_node item nm fs.inode_counter) fs.inodes
            inode_counter := fs.inode_counter + 1 }
          { cmNode with content :=
              NodeContent.Children (kvInsert (nm ++ ".yaml") fs.inode_counter ch) }

theorem cm_items_loop_findNode_lt {k : Nat} :
    ∀ (items : List KubeObject) (fs : KubeFilesystem) (cmNode : Node),
      k < fs.inode_counter →
      findNode (cm_items_loop fs cmNode items).1.inodes k = findNode fs.inodes k := by
  intro items
  induction items with
  | nil => intro fs cmNode _; rfl
  | cons item rest ih =>
    intro fs cmNode hk
    cases hn : item.metadata.name with
    | none =>
      rw [cm_items_loop_cons_none hn]
      exact ih fs cmNode hk
    | some nm =>
      cases hc : cmNode.content with
      | Bytes d =>
        rw [cm_items_loop_cons_bytes hn hc]
      | Children ch =>
        rw [cm_items_loop_cons_children hn hc]
        rw [ih _ _ (Nat.lt_succ_of_lt hk)]
        rw [findNode_kvInsert]
        rw [if_neg (Nat.ne_of_lt hk)]

theorem cm_items_loop_members :
    ∀ (items : List KubeObject) (fs : KubeFilesystem) (cmNode : Node) (p : Nat × Node),
      p ∈ (cm_items_loop fs cmNode items).1.inodes →
      p ∈ fs.inodes ∨
        (p.2.attrs.kind = FileType.RegularFile ∧
          isChildrenContent p.2.content = false ∧
          p.2.attrs.size = (nodeBytes p.2).length ∧
          p.2.attrs.blocks = div_ceil (nodeBytes p.2).length BLOCK_SIZE) := by
  intro items
  induction items with
  | nil => intro fs cmNode p hp; exact Or.inl hp
  | cons item rest ih =>
    intro fs cmNode p hp
    cases hn : item.metadata.name with
    | none =>
      rw [cm_items_loop_cons_none hn] at hp
      exact ih fs cmNode p hp
    | some nm =>
      cases hc : cmNode.content with
      | Bytes d =>
        rw [cm_items_loop_cons_bytes hn hc] at hp
        exact Or.inl hp
      | Children ch =>
        rw [cm_items_loop_cons_children hn hc] at hp
        rcases ih _ _ p hp with hp1 | hp1
        · rcases mem_kvInsert hp1 with hp0 | hp2
          · rw [hp0]
            exact Or.inr ⟨rfl, rfl, rfl, rfl⟩
          · exact Or.inl hp2
        · exact Or.inr hp1

theorem cm_items_loop_result :
    ∀ (items : List KubeObject) (fs : KubeFilesystem) (cmNode : Node) (ch : NodeChildren),
      cmNode.content = NodeContent.Children ch →
      ∃ fs' ch', cm_items_loop fs cmNode items =
          (fs', some { cmNode with content := NodeContent.Children ch' }) ∧
        ∀ q ∈ ch', q ∈ ch ∨ (findNode fs'.inodes q.2).isSome = true := by
  intro items
  induction items with
  | nil =>
    intro fs cmNode ch hc
    refine ⟨fs, ch, ?_, fun q hq => Or.inl hq⟩
    rw [← hc]
    rfl
  | cons item rest ih =>
    intro fs cmNode ch hc
    cases hn : item.metadata.name with
    | none =>
      rw [cm_items_loop_cons_none hn]
      exact ih fs cmNode ch hc
    | some nm =>
      rw [cm_items_loop_cons_children hn hc]
      obtain ⟨fs', ch', heq, href⟩ := ih
        { inodes := kvInsert fs.inode_counter (cm_file_node item nm fs.inode_counter) fs.inodes
          inode_counter := fs.inode_counter + 1 }
        { cmNode with content :=
            NodeContent.Children (kvInsert (nm ++ ".yaml") fs.inode_counter ch) }
        (kvInsert (nm ++ ".yaml") fs.inode_counter ch) rfl
      refine ⟨fs', ch', heq, fun q hq => ?_⟩
      rcases href q hq with hq1 | hq1
      · rcases mem_kvInsert hq1 with hq0 | hq2
        · refine Or.inr ?_
          have hpres : (findNode
              (kvInsert fs.inode_counter (cm_file_node item nm fs.inode_counter) fs.inodes)
              q.2).isSome = true := by
            rw [hq0]
            simp [findNode_kvInsert]
          have hres := cm_items_loop_presence rest
            { inodes := kvInsert fs.inode_counter (cm_file_node item nm fs.inode_counter) fs.inodes
              inode_counter := fs.inode_counter + 1 }
            { cmNode with content :=
                NodeContent.Children (kvInsert (nm ++ ".yaml") fs.inode_counter ch) }
            hpres
          rw [heq] at hres
          exact hres
        · exact Or.inl hq2
      · exact Or.inr hq1

theorem create_namespace_node_self (fs : KubeFilesystem) (ino : Nat) (ns : KubeObject) :
    (findNode (create_namespace_node fs ino ns).inodes ino).isSome = true := by
  rw [create_namespace_node_eq]
  by_cases h : ino = fs.inode_counter <;> simp [findNode_kvInsert, h]

theorem create_namespace_node_invs {fs : KubeFilesystem} (ino : Nat) (ns : KubeObject)
    (h : TableInvs fs.inodes) : TableInvs (create_namespace_node fs ino ns).inodes := by
  obtain ⟨hnd, hkind, hsize⟩ := h
  rw [create_namespace_node_eq]
  refine ⟨?_, ?_, ?_⟩
  · refine tableNoDangling_grow ?_ ?_ hnd
    · intro k hk
      exact findNode_isSome_kvInsert _ _ (findNode_isSome_kvInsert _ _ hk)
    · intro p hp
      rcases mem_kvInsert hp with hp0 | hp1
      · refine Or.inr ?_
        intro q hq
        rw [hp0] at hq
        simp [nodeRefs, ns_manifest_node] at hq
      · rcases mem_kvInsert hp1 with hp0 | hp2
        · refine Or.inr ?_
          intro q hq
          rw [hp0] at hq
          simp [nodeRefs, ns_dir_node, kvInsert] at hq
          rw [hq]
          simp [findNode_kvInsert]
        · exact Or.inl hp2
  · refine tableKindAgrees_kvInsert (tableKindAgrees_kvInsert hkind ?_) ?_
    · simp [ns_dir_node, isChildrenContent]
    · simp [ns_manifest_node, isChildrenContent]
  · refine tableSizeInv_kvInsert (tableSizeInv_kvInsert hsize ?_) ?_
    · intro hcc
      simp [ns_dir_node, isChildrenContent] at hcc
    · intro hcc
      exact ⟨rfl, rfl⟩

theorem create_configmaps_node_invs (client : CoreV1Client) (now : Nat)
    {fs : KubeFilesystem} (ns : String)
    (h : TableInvs fs.inodes) : TableInvs (create_configmaps_node client now fs ns).inodes := by
  obtain ⟨hnd, hkind, hsize⟩ := h
  cases hni : namespaceInode fs.inodes ns with
  | none =>
    rw [create_configmaps_node_none hni]
    exact ⟨hnd, hkind, hsize⟩
  | some nsIno =>
    cases hfn : findNode fs.inodes nsIno with
    | none =>
      rw [create_configmaps_node_no_ns hni hfn]
      exact ⟨hnd, hkind, hsize⟩
    | some nsNode =>
      cases hcc : nsNode.content with
      | Bytes d =>
        rw [create_configmaps_node_ns_bytes hni hfn hcc]
        exact ⟨hnd, hkind, hsize⟩
      | Children nsCh =>
        have hns_mem := findNode_mem hfn
        have hdir : nsNode.attrs.kind = FileType.Directory :=
          (hkind _ hns_mem).mpr (by simp [hcc, isChildrenContent])
        have hrefs_ns : ∀ q ∈ nsCh, (findNode fs.inodes q.2).isSome = true := by
          intro q hq
          refine hnd _ hns_mem q ?_
          simp only [nodeRefs, hcc]
          exact hq
        cases hcm : client.configmapsList ns with
        | error e =>
          rw [create_configmaps_node_err hni hfn hcc hcm]
          refine ⟨?_, ?_, ?_⟩
          · refine tableNoDangling_grow ?_ ?_ hnd
            · intro k hk
              exact findNode_isSome_kvInsert _ _ (findNode_isSome_kvInsert _ _ hk)
            · intro p hp
              rcases mem_kvInsert hp with hp0 | hp1
              · refine Or.inr ?_
                intro q hq
                rw [hp0] at hq
                simp [nodeRefs, configmaps_dir_node] at hq
              · rcases mem_kvInsert hp1 with hp0 | hp2
                · refine Or.inr ?_
                  intro q hq
                  rw [hp0] at hq
                  simp only [nodeRefs] at hq
                  rcases mem_kvInsert hq with hq0 | hq1
                  · rw [hq0]
                    simp [findNode_kvInsert]
                  · exact findNode_isSome_kvInsert _ _
                      (findNode_isSome_kvInsert _ _ (hrefs_ns q hq1))
                · exact Or.inl hp2
          · refine tableKindAgrees_kvInsert (tableKindAgrees_kvInsert hkind ?_) ?_
            · simp [isChildrenContent, hdir]
            · simp [configmaps_dir_node, isChildrenContent]
          · refine tableSizeInv_kvInsert (tableSizeInv_kvInsert hsize ?_) ?_
            · intro hcc'
              simp [isChildrenContent] at hcc'
            · intro hcc'
              simp [configmaps_dir_node, isChildrenContent] at hcc'
        | ok items =>
          obtain ⟨fs3, ch', hloop, href⟩ := cm_items_loop_result items
            { inodes :=
                kvInsert nsIno
                  { nsNode with content :=
                      NodeContent.Children (kvInsert "configmaps" fs.inode_counter nsCh) }
                  fs.inodes
              inode_counter := fs.inode_counter + 1 }
            (configmaps_dir_node fs.inode_counter now) [] rfl
          rw [create_configmaps_node_ok hni hfn hcc hcm hloop]
          have hpres2 : ∀ k, (findNode fs.inodes k).isSome = true →
              (findNode fs3.inodes k).isSome = true := by
            intro k hk
            have hx := cm_items_loop_presence items
              { inodes :=
                  kvInsert nsIno
                    { nsNode with content :=
                        NodeContent.Children (kvInsert "configmaps" fs.inode_counter nsCh) }
                    fs.inodes
                inode_counter := fs.inode_counter + 1 }
              (configmaps_dir_node fs.inode_counter now)
              (findNode_isSome_kvInsert _ _ hk)
            rw [hloop] at hx
            exact hx
          have hmem3 : ∀ p ∈ fs3.inodes,
              p ∈ kvInsert nsIno
                  { nsNode with content :=
                      NodeContent.Children (kvInsert "configmaps" fs.inode_counter nsCh) }
                  fs.inodes ∨
                (p.2.attrs.kind = FileType.RegularFile ∧
                  isChildrenContent p.2.content = false ∧
                  p.2.attrs.size = (nodeBytes p.2).length ∧
                  p.2.attrs.blocks = div_ceil (nodeBytes p.2).length BLOCK_SIZE) := by
            intro p hp
            have hp' : p ∈ (cm_items_loop
                { inodes :=
                    kvInsert nsIno
                      { nsNode with content :=
                          NodeContent.Children (kvInsert "configmaps" fs.inode_counter nsCh) }
                      fs.inodes
                  inode_counter := fs.inode_counter + 1 }
                (configmaps_dir_node fs.inode_counter now) items).1.inodes := by
              rw [hloop]
              exact hp
            exact cm_items_loop_members items _ _ p hp'
          refine ⟨?_, ?_, ?_⟩
          · refine tableNoDangling_grow ?_ ?_ hnd
            · intro k hk
              exact findNode_isSome_kvInsert _ _ (hpres2 k hk)
            · intro p hp
              rcases mem_kvInsert hp with hp0 | hp3
              · refine Or.inr ?_
                intro q hq
                rw [hp0] at hq
                simp [nodeRefs] at hq
                rcases href q hq with hq0 | hq1
                · simp at hq0
                · exact findNode_isSome_kvInsert _ _ hq1
              · rcases hmem3 p hp3 with hp4 | hp4
                · rcases mem_kvInsert hp4 with hp0 | hp5
                  · refine Or.inr ?_
                    intro q hq
                    rw [hp0] at hq
                    simp [nodeRefs] at hq
                    rcases mem_kvInsert hq with hq0 | hq1
                    · rw [hq0]
                      simp [findNode_kvInsert]
                    · exact findNode_isSome_kvInsert _ _ (hpres2 _ (hrefs_ns q hq1))
                  · exact Or.inl hp5
                · refine Or.inr ?_
                  intro q hq
                  rw [nodeRefs_eq_nil hp4.2.1] at hq
                  simp at hq
          · have hk3 : tableKindAgrees fs3.inodes := by
              intro p hp
              rcases hmem3 p hp with hp4 | hp4
              · rcases mem_kvInsert hp4 with hp0 | hp5
                · rw [hp0]
                  simp [isChildrenContent, hdir]
                · exact hkind p hp5
              · simp [hp4.1, hp4.2.1]
            exact tableKindAgrees_kvInsert hk3 (by simp [configmaps_dir_node, isChildrenContent])
          · have hs3 : tableSizeInv fs3.inodes := by
              intro p hp hcc'
              rcases hmem3 p hp with hp4 | hp4
              · rcases mem_kvInsert hp4 with hp0 | hp5
                · rw [hp0] at hcc'
                  simp [isChildrenContent] at hcc'
                · exact hsize p hp5 hcc'
              · exact ⟨hp4.2.2.1, hp4.2.2.2⟩
            refine tableSizeInv_kvInsert hs3 ?_
            intro hcc'
            simp [configmaps_dir_node, isChildrenContent] at hcc'

theorem tableInvs_kvInsert_dirEmpty {t : InodeTable} {k : Nat} {n : Node}
    (h : TableInvs t) (hk : n.attrs.kind = FileType.Directory)
    (hc : n.content = NodeContent.Children []) : TableInvs (kvInsert k n t) := by
  obtain ⟨hnd, hkind, hsize⟩ := h
  refine ⟨?_, tableKindAgrees_kvInsert hkind (by simp [hk, hc, isChildrenContent]),
    tableSizeInv_kvInsert hsize (by intro hcc; rw [hc] at hcc; simp [isChildrenContent] at hcc)⟩
  refine tableNoDangling_grow ?_ ?_ hnd
  · exact fun j hj => findNode_isSome_kvInsert _ _ hj
  · intro p hp
    rcases mem_kvInsert hp with hp0 | hp1
    · refine Or.inr ?_
      intro q hq
      rw [hp0] at hq
      simp [nodeRefs, hc] at hq
    · exact Or.inl hp1

theorem initLoop_invs (client : CoreV1Client) (now : Nat) :
    ∀ (items : List KubeObject) (fs : KubeFilesystem), TableInvs fs.inodes →
      TableInvs (initLoop client now fs items).1.inodes := by
  intro items
  induction items with
  | nil => intro fs h; exact h
  | cons item rest ih =>
    intro fs h
    cases hn : item.metadata.name with
    | none =>
      rw [initLoop_cons_none hn]
      exact ih fs h
    | some nm =>
      have h2 : TableInvs (create_namespace_node
          { fs with inode_counter := fs.inode_counter + 1 } fs.inode_counter item).inodes :=
        create_namespace_node_invs _ _ h
      cases hr : findNode (create_namespace_node
          { fs with inode_counter := fs.inode_counter + 1 } fs.inode_counter item).inodes 1 with
      | none =>
        rw [initLoop_cons_root_none hn rfl hr]
        exact ih _ (create_configmaps_node_invs _ _ _ h2)
      | some root =>
        cases hc : root.content with
        | Bytes d =>
          rw [initLoop_cons_root_bytes hn rfl hr hc]
          exact h2
        | Children children =>
          rw [initLoop_cons_root_children hn rfl hr hc]
          apply ih
          apply create_configmaps_node_invs
          obtain ⟨hnd2, hkind2, hsize2⟩ := h2
          have hrootdir : root.attrs.kind = FileType.Directory :=
            (hkind2 _ (findNode_mem hr)).mpr (by simp [hc, isChildrenContent])
          refine ⟨?_, ?_, ?_⟩
          · refine tableNoDangling_grow ?_ ?_ hnd2
            · exact fun j hj => findNode_isSome_kvInsert _ _ hj
            · intro p hp
              rcases mem_kvInsert hp with hp0 | hp1
              · refine Or.inr ?_
                intro q hq
                rw [hp0] at hq
                simp [nodeRefs, root_with_child] at hq
                rcases mem_kvInsert hq with hq0 | hq1
                · rw [hq0]
                  exact findNode_isSome_kvInsert _ _ (create_namespace_node_self _ _ _)
                · refine findNode_isSome_kvInsert _ _ ?_
                  refine hnd2 _ (findNode_mem hr) q ?_
                  simp only [nodeRefs, hc]
                  exact hq1
              · exact Or.inl hp1
          · refine tableKindAgrees_kvInsert hkind2 ?_
            simp [root_with_child, isChildrenContent, hrootdir]
          · refine tableSizeInv_kvInsert hsize2 ?_
            intro hcc'
            simp [root_with_child, isChildrenContent] at hcc'

theorem init_invs (client : CoreV1Client) (now : Nat) (fs : KubeFilesystem)
    (h : TableInvs fs.inodes) : TableInvs (KubeFilesystem.init client now fs).1.inodes := by
  have h0 : TableInvs (kvInsert 1 root_node fs.inodes) :=
    tableInvs_kvInsert_dirEmpty h rfl rfl
  cases hns : client.namespacesList with
  | error e =>
    rw [init_error_eq hns]
    exact h0
  | ok resp =>
    rw [init_ok_eq hns]
    exact initLoop_invs client now resp _ h0

theorem new_invs : TableInvs (KubeFilesystem.new).inodes := by
  refine ⟨?_, ?_, ?_⟩
  · intro p hp
    exact absurd hp (List.not_mem_nil p)
  · intro p hp
    exact absurd hp (List.not_mem_nil p)
  · intro p hp
    exact absurd hp (List.not_mem_nil p)

/-- The invariants of the table built by a full initialization, starting
from `KubeFilesystem::new`, whether or not it reported an error. -/
theorem init_new_invs (client : CoreV1Client) (now : Nat) :
    TableInvs ((KubeFilesystem.init client now KubeFilesystem.new).1).inodes :=
  init_invs client now KubeFilesystem.new new_invs

theorem create_namespace_node_findNode_ne {fs : KubeFilesystem} {ino k : Nat}
    {ns : KubeObject} (hk1 : k ≠ ino) (hk2 : k ≠ fs.inode_counter) :
    findNode (create_namespace_node fs ino ns).inodes k = findNode fs.inodes k := by
  rw [create_namespace_node_eq]
  show findNode (kvInsert fs.inode_counter _ (kvInsert ino _ fs.inodes)) k = _
  rw [findNode_kvInsert, if_neg hk2, findNode_kvInsert, if_neg hk1]

theorem ccn_counter_lt (client : CoreV1Client) (now : Nat) (fs : KubeFilesystem)
    (ns : String) :
    fs.inode_counter < (create_configmaps_node client now fs ns).inode_counter := by
  cases hni : namespaceInode fs.inodes ns with
  | none =>
    rw [create_configmaps_node_none hni]
    exact Nat.lt_succ_self _
  | some nsIno =>
    cases hfn : findNode fs.inodes nsIno with
    | none =>
      rw [create_configmaps_node_no_ns hni hfn]
      exact Nat.lt_succ_self _
    | some nsNode =>
      cases hcc : nsNode.content with
      | Bytes d =>
        rw [create_configmaps_node_ns_bytes hni hfn hcc]
        exact Nat.lt_succ_self _
      | Children nsCh =>
        cases hcm : client.configmapsList ns with
        | error e =>
          rw [create_configmaps_node_err hni hfn hcc hcm]
          exact Nat.lt_succ_self _
        | ok items =>
          obtain ⟨fs3, ch', hloop, _⟩ := cm_items_loop_result items
            { inodes :=
                kvInsert nsIno
                  { nsNode with content :=
                      NodeContent.Children (kvInsert "configmaps" fs.inode_counter nsCh) }
                  fs.inodes
              inode_counter := fs.inode_counter + 1 }
            (configmaps_dir_node fs.inode_counter now) [] rfl
          rw [create_configmaps_node_ok hni hfn hcc hcm hloop]
          have hle := cm_items_loop_counter_le items
            { inodes :=
                kvInsert nsIno
                  { nsNode with content :=
                      NodeContent.Children (kvInsert "configmaps" fs.inode_counter nsCh) }
                  fs.inodes
              inode_counter := fs.inode_counter + 1 }
            (configmaps_dir_node fs.inode_counter now)
          rw [hloop] at hle
          exact Nat.lt_of_lt_of_le (Nat.lt_succ_self _) hle

theorem ccn_findNode_lt {client : CoreV1Client} {now : Nat} {fs : KubeFilesystem}
    {ns : String} {k : Nat} (hk : k < fs.inode_counter)
    (hns : ∀ j, namespaceInode fs.inodes ns = some j → j ≠ k) :
    findNode (create_configmaps_node client now fs ns).inodes k = findNode fs.inodes k := by
  cases hni : namespaceInode fs.inodes ns with
  | none => rw [create_configmaps_node_none hni]
  | some nsIno =>
    have hne : nsIno ≠ k := hns nsIno hni
    cases hfn : findNode fs.inodes nsIno with
    | none => rw [create_configmaps_node_no_ns hni hfn]
    | some nsNode =>
      cases hcc : nsNode.content with
      | Bytes d => rw [create_configmaps_node_ns_bytes hni hfn hcc]
      | Children nsCh =>
        cases hcm : client.configmapsList ns with
        | error e =>
          rw [create_configmaps_node_err hni hfn hcc hcm]
          show findNode (kvInsert fs.inode_counter _ (kvInsert nsIno _ fs.inodes)) k = _
          rw [findNode_kvInsert, if_neg (Nat.ne_of_lt hk), findNode_kvInsert,
            if_neg (fun h => hne h.symm)]
        | ok items =>
          obtain ⟨fs3, ch', hloop, _⟩ := cm_items_loop_result items
            { inodes :=
                kvInsert nsIno
                  { nsNode with content :=
                      NodeContent.Children (kvInsert "configmaps" fs.inode_counter nsCh) }
                  fs.inodes
              inode_counter := fs.inode_counter + 1 }
            (configmaps_dir_node fs.inode_counter now) [] rfl
          rw [create_configmaps_node_ok hni hfn hcc hcm hloop]
          have hlt := cm_items_loop_findNode_lt items
            { inodes :=
                kvInsert nsIno
                  { nsNode with content :=
                      NodeContent.Children (kvInsert "configmaps" fs.inode_counter nsCh) }
                  fs.inodes
              inode_counter := fs.inode_counter + 1 }
            (configmaps_dir_node fs.inode_counter now) (Nat.lt_succ_of_lt hk)
          rw [hloop] at hlt
          show findNode (kvInsert fs.inode_counter _ fs3.inodes) k = _
          rw [findNode_kvInsert, if_neg (Nat.ne_of_lt hk), hlt, findNode_kvInsert,
            if_neg (fun h => hne h.symm)]

theorem ccn_findNode_map_lt {client : CoreV1Client} {now : Nat} {fs : KubeFilesystem}
    {ns : String} {k : Nat} (hk : k < fs.inode_counter) :
    Option.map (fun n => (n.name, n.attrs))
        (findNode (create_configmaps_node client now fs ns).inodes k) =
      Option.map (fun n => (n.name, n.attrs)) (findNode fs.inodes k) := by
  by_cases hns : ∀ j, namespaceInode fs.inodes ns = some j → j ≠ k
  · rw [ccn_findNode_lt hk hns]
  · push_neg at hns
    obtain ⟨j, hj, hjk⟩ := hns
    rw [hjk] at hj
    cases hfn : findNode fs.inodes k with
    | none =>
      rw [create_configmaps_node_no_ns hj hfn]
      exact congrArg (Option.map _) hfn
    | some nsNode =>
      cases hcc : nsNode.content with
      | Bytes d =>
        rw [create_configmaps_node_ns_bytes hj hfn hcc]
        exact congrArg (Option.map _) hfn
      | Children nsCh =>
        cases hcm : client.configmapsList ns with
        | error e =>
          rw [create_configmaps_node_err hj hfn hcc hcm]
          show Option.map _ (findNode (kvInsert fs.inode_counter _
            (kvInsert k _ fs.inodes)) k) = _
          rw [findNode_kvInsert, if_neg (Nat.ne_of_lt hk), findNode_kvInsert, if_pos rfl]
          rfl

        | ok items =>
          obtain ⟨fs3, ch', hloop, _⟩ := cm_items_loop_result items
            { inodes :=
                kvInsert k
                  { nsNode with content :=
                      NodeContent.Children (kvInsert "configmaps" fs.inode_counter nsCh) }
                  fs.inodes
              inode_counter := fs.inode_counter + 1 }
            (configmaps_dir_node fs.inode_counter now) [] rfl
          rw [create_configmaps_node_ok hj hfn hcc hcm hloop]
          have hlt := cm_items_loop_findNode_lt items
            { inodes :=
                kvInsert k
                  { nsNode with content :=
                      NodeContent.Children (kvInsert "configmaps" fs.inode_counter nsCh) }
                  fs.inodes
              inode_counter := fs.inode_counter + 1 }
            (configmaps_dir_node fs.inode_counter now) (Nat.lt_succ_of_lt hk)
          rw [hloop] at hlt
          show Option.map _ (findNode (kvInsert fs.inode_counter _ fs3.inodes) k) = _
          rw [findNode_kvInsert, if_neg (Nat.ne_of_lt hk), hlt, findNode_kvInsert, if_pos rfl]
          rfl

theorem div_ceil_block (a : Nat) :
    div_ceil a BLOCK_SIZE = (a + BLOCK_SIZE - 1) / BLOCK_SIZE := by
  simp only [div_ceil, BLOCK_SIZE]
  by_cases h : a % 512 = 0
  · simp only [h, if_true]
    omega
  · simp only [h, if_false]
    omega

/-- A single-namespace client used as a concrete exemplar: one namespace
named `alpha` (creation timestamp 5, serialized to two bytes) whose
configmap list request fails. -/
def clientA : CoreV1Client :=
  { namespacesList := Except.ok
      [ { metadata := { name := some "alpha", creation_timestamp := some 5 }
          yaml := [104, 105] } ]
    configmapsList := fun _ => Except.error () }

/-- The `manifest.yaml` node the build places at inode 3 for `clientA`. -/
def nodeA3 : Node :=
  ns_manifest_node
    { metadata := { name := some "alpha", creation_timestamp := some 5 }
      yaml := [104, 105] } 3

/-- A small well-formed literal table: root (1) with one namespace `ns` (2)
containing one regular file `f.yaml` (3). -/
def rootW : Node :=
  { name := "/", attrs := { ROOT_ATTR with nlink := 3 }
    content := NodeContent.Children [("ns", 2)] }

def nsW : Node :=
  { name := "ns", attrs := { ROOT_ATTR with ino := 2 }
    content := NodeContent.Children [("f.yaml", 3)] }

def fileW : Node :=
  { name := "f.yaml"
    attrs :=
      { ROOT_ATTR with
          ino := 3
          size := 3
          blocks := 1
          kind := FileType.RegularFile
          perm := 0o444
          nlink := 1 }
    content := NodeContent.Bytes [10, 20, 30] }

def fsW : KubeFilesystem :=
  { inodes := [(1, rootW), (2, nsW), (3, fileW)], inode_counter := 4 }

/-- Claim C8: after initialization completes (whether it succeeded or
failed), every inode number appearing as a value in any directory node's
children map exists as a key in the inode table — no dangling children. -/
theorem init_no_dangling_children (client : CoreV1Client) (now : Nat) :
    NoDangling (KubeFilesystem.init client now KubeFilesystem.new).1 :=
  (init_new_invs client now).1

/-- Claim C9: for every node in the inode table after initialization, the
attribute kind agrees with the content variant: `Directory` exactly for
`Children` content and `RegularFile` exactly for `Bytes` content. -/
theorem kind_matches_content (client : CoreV1Client) (now : Nat) (k : Nat) (n : Node)
    (h : findNode ((KubeFilesystem.init client now KubeFilesystem.new).1).inodes k = some n) :
    (n.attrs.kind = FileType.Directory ↔ ∃ ch, n.content = NodeContent.Children ch) ∧
    (n.attrs.kind = FileType.RegularFile ↔ ∃ d, n.content = NodeContent.Bytes d) := by
  have hiff := (init_new_invs client now).2.1 (k, n) (findNode_mem h)
  cases hc : n.content with
  | Bytes d =>
    rw [hc] at hiff
    simp only [isChildrenContent] at hiff
    have hnd : ¬ n.attrs.kind = FileType.Directory := by
      intro hk
      exact absurd (hiff.mp hk) (by simp)
    constructor
    · constructor
      · intro hk
        exact absurd hk hnd
      · rintro ⟨ch, hch⟩
        exact absurd hch (by simp)
    · constructor
      · intro _
        exact ⟨d, rfl⟩
      · intro _
        cases h' : n.attrs.kind with
        | Directory => exact absurd h' hnd
        | RegularFile => rfl
  | Children ch =>
    rw [hc] at hiff
    simp only [isChildrenContent] at hiff
    have hdir : n.attrs.kind = FileType.Directory := by
      refine hiff.mpr ?_
      first
      | exact rfl
      | trivial
    constructor
    · exact ⟨fun _ => ⟨ch, rfl⟩, fun _ => hdir⟩
    · constructor
      · intro hk
        rw [hdir] at hk
        exact absurd hk (by simp)
      · rintro ⟨d, hd⟩
        exact absurd hd (by simp)

/-- Witness for C9 at the concrete `clientA` table, inode 3. -/
theorem kind_matches_content_witness :
    (nodeA3.attrs.kind = FileType.Directory ↔ ∃ ch, nodeA3.content = NodeContent.Children ch) ∧
    (nodeA3.attrs.kind = FileType.RegularFile ↔ ∃ d, nodeA3.content = NodeContent.Bytes d) :=
  kind_matches_content clientA 0 3 nodeA3 (by decide)

/-- Claim C7: for every regular-file node in the table after
initialization, `attrs.size` is the byte length of its `Bytes` content and
`attrs.blocks` is the ceiling of the size divided by the block size 512. -/
theorem file_size_blocks (client : CoreV1Client) (now : Nat) (k : Nat) (n : Node)
    (h : findNode ((KubeFilesystem.init client now KubeFilesystem.new).1).inodes k = some n)
    (hk : n.attrs.kind = FileType.RegularFile) :
    ∃ d, n.content = NodeContent.Bytes d ∧ n.attrs.size = d.length ∧
      n.attrs.blocks = div_ceil d.length BLOCK_SIZE ∧
      n.attrs.blocks = (d.length + BLOCK_SIZE - 1) / BLOCK_SIZE := by
  have hmem := findNode_mem h
  have hiff := (init_new_invs client now).2.1 _ hmem
  have hsz := (init_new_invs client now).2.2 _ hmem
  cases hc : n.content with
  | Children ch =>
    have hdir : n.attrs.kind = FileType.Directory :=
      hiff.mpr (by simp [hc, isChildrenContent])
    rw [hk] at hdir
    exact absurd hdir (by simp)
  | Bytes d =>
    have hcc : isChildrenContent n.content = false := by simp [hc, isChildrenContent]
    obtain ⟨h1, h2⟩ := hsz hcc
    have hby : nodeBytes n = d := by simp [nodeBytes, hc]
    rw [hby] at h1 h2
    refine ⟨d, rfl, h1, h2, ?_⟩
    rw [h2, div_ceil_block]

/-- Witness for C7 at the concrete `clientA` table, inode 3. -/
theorem file_size_blocks_witness :
    ∃ d, nodeA3.content = NodeContent.Bytes d ∧ nodeA3.attrs.size = d.length ∧
      nodeA3.attrs.blocks = div_ceil d.length BLOCK_SIZE ∧
      nodeA3.attrs.blocks = (d.length + BLOCK_SIZE - 1) / BLOCK_SIZE :=
  file_size_blocks clientA 0 3 nodeA3 (by decide) (by decide)

/-- Claim C6: `lookup(parent, name)` fails with NotFound exactly when the
parent is unknown, not a directory, or has no child named `name`; otherwise
it returns the child's stored attributes with the fixed 1-second TTL.
(Quantified over any table with the initialization invariants of C8/C9.) -/
theorem lookup_spec (fs : KubeFilesystem) (hnd : NoDangling fs) (hag : KindAgrees fs)
    (parent : Nat) (name : String) :
    TTL = 1 ∧
    (lookup fs parent name = Except.error FsError.ENOENT ↔
      (findNode fs.inodes parent = none ∨
        ∃ p, findNode fs.inodes parent = some p ∧
          (p.attrs.kind ≠ FileType.Directory ∨
            ∃ ch, p.content = NodeContent.Children ch ∧ kvFind name ch = none))) ∧
    (∀ p ch i, findNode fs.inodes parent = some p →
      p.content = NodeContent.Children ch → kvFind name ch = some i →
      ∃ n, findNode fs.inodes i = some n ∧
        lookup fs parent name = Except.ok (TTL, n.attrs)) := by
  refine ⟨rfl, ?_, ?_⟩
  · cases hp : findNode fs.inodes parent with
    | none => simp [lookup, hp]
    | some p =>
      cases hpc : p.content with
      | Bytes d =>
        have hknd : ¬ p.attrs.kind = FileType.Directory := by
          intro hk
          have hx := (hag _ (findNode_mem hp)).mp hk
          rw [hpc] at hx
          simp [isChildrenContent] at hx
        simp [lookup, hp, hpc, hknd]
      | Children ch =>
        have hkd : p.attrs.kind = FileType.Directory :=
          (hag _ (findNode_mem hp)).mpr (by simp [hpc, isChildrenContent])
        cases hf : kvFind name ch with
        | none => simp [lookup, hp, hpc, hf, hkd]
        | some i =>
          have hi : (findNode fs.inodes i).isSome = true := by
            refine hnd _ (findNode_mem hp) (name, i) ?_
            simp only [nodeRefs, hpc]
            exact kvFind_mem hf
          obtain ⟨n, hn⟩ := Option.isSome_iff_exists.mp hi
          simp [lookup, hp, hpc, hf, hn, hkd]
  · intro p ch i hp hpc hf
    have hi : (findNode fs.inodes i).isSome = true := by
      refine hnd _ (findNode_mem hp) (name, i) ?_
      simp only [nodeRefs, hpc]
      exact kvFind_mem hf
    obtain ⟨n, hn⟩ := Option.isSome_iff_exists.mp hi
    exact ⟨n, hn, by simp [lookup, hp, hpc, hf, hn]⟩

/-- Witness for C6 on the concrete table `fsW`. -/
theorem lookup_spec_witness :
    ∃ n, findNode fsW.inodes 2 = some n ∧ lookup fsW 1 "ns" = Except.ok (TTL, n.attrs) :=
  (lookup_spec fsW (by decide) (by decide) 1 "ns").2.2 rootW [("ns", 2)] 2
    (by decide) (by decide) (by decide)

/-- Claim C3: `read` on a regular file returns exactly the byte range
`[offset, offset + size)` clipped to the content length (empty when the
offset is at or past the end, not an error), and `read` on a directory
fails with `EISDIR`.  Offsets and sizes range over the machine types
(`0 ≤ offset < 2^63`, `size < 2^32`). -/
theorem read_spec (fs : KubeFilesystem) (ino : Nat) (n : Node) (offset : Int) (size : Nat)
    (hn : findNode fs.inodes ino = some n) :
    (∀ d, n.attrs.kind = FileType.RegularFile → n.content = NodeContent.Bytes d →
      0 ≤ offset → offset < 2 ^ 63 → size < 2 ^ 32 →
      read fs ino offset size = ReadReply.dataOf ((d.drop offset.toNat).take size) ∧
      (d.length ≤ offset.toNat → read fs ino offset size = ReadReply.dataOf [])) ∧
    (n.attrs.kind = FileType.Directory → read fs ino offset size = ReadReply.err FsError.EISDIR) := by
  constructor
  · intro d hk hc h0 h63 h32
    rw [show (2 : Int) ^ 63 = 9223372036854775808 from by norm_num] at h63
    rw [show (2 : Nat) ^ 32 = 4294967296 from by norm_num] at h32
    have hstart : (offset.emod 18446744073709551616).toNat = offset.toNat := by
      have he : offset.emod 18446744073709551616 = offset % 18446744073709551616 := rfl
      rw [he]
      omega
    have hmain : read fs ino offset size =
        if d.length ≤ offset.toNat then ReadReply.dataOf []
        else ReadReply.dataOf ((d.drop offset.toNat).take
          (min ((offset.toNat + size) % 18446744073709551616) d.length - offset.toNat)) := by
      simp [read, hn, hk, hc, hstart]
    constructor
    · rw [hmain]
      by_cases hlen : d.length ≤ offset.toNat
      · rw [if_pos hlen]
        rw [List.drop_eq_nil_of_le hlen]
        simp
      · rw [if_neg hlen]
        congr 1
        have hmod : (offset.toNat + size) % 18446744073709551616 = offset.toNat + size := by
          omega
        rw [hmod, List.take_eq_take, List.length_drop]
        omega
    · intro hlen
      rw [hmain, if_pos hlen]
  · intro hk
    simp [read, hn, hk]

/-- Witness for C3 on the concrete table `fsW`: a mid-file read, a read
past the end, and a read of a directory. -/
theorem read_spec_witness :
    read fsW 3 1 5 = ReadReply.dataOf [20, 30] ∧
    read fsW 3 99 5 = ReadReply.dataOf [] ∧
    read fsW 1 0 4 = ReadReply.err FsError.EISDIR := by
  refine ⟨?_, ?_, ?_⟩
  · have h := (read_spec fsW 3 fileW 1 5 (by decide)).1 [10, 20, 30]
      (by decide) (by decide) (by decide) (by decide) (by decide)
    exact h.1.trans (by decide)
  · exact ((read_spec fsW 3 fileW 99 5 (by decide)).1 [10, 20, 30]
      (by decide) (by decide) (by decide) (by decide) (by decide)).2 (by decide)
  · exact (read_spec fsW 1 rootW 0 4 (by decide)).2 (by decide)

/-- Claim C10: `read` with a negative offset returns an empty result, not
an error or an out-of-bounds access: the `i64` offset is reinterpreted as a
`usize`, landing at or beyond the end of any representable content
(`Vec` lengths are below `2^63`). -/
theorem read_negative_offset (fs : KubeFilesystem) (ino : Nat) (n : Node) (d : List Nat)
    (offset : Int) (size : Nat) (hn : findNode fs.inodes ino = some n)
    (hk : n.attrs.kind = FileType.RegularFile) (hc : n.content = NodeContent.Bytes d)
    (hlen : d.length < 2 ^ 63) (hneg : offset < 0) (hlo : -2 ^ 63 ≤ offset) :
    read fs ino offset size = ReadReply.dataOf [] := by
  rw [show (2 : Nat) ^ 63 = 9223372036854775808 from by norm_num] at hlen
  rw [show -(2 : Int) ^ 63 = -9223372036854775808 from by norm_num] at hlo
  have hbig : d.length ≤ (offset.emod 18446744073709551616).toNat := by
    have he : offset.emod 18446744073709551616 = offset % 18446744073709551616 := rfl
    rw [he]
    omega
  simp [read, hn, hk, hc, hbig]

/-- Witness for C10 on the concrete table `fsW`. -/
theorem read_negative_offset_witness : read fsW 3 (-7) 4 = ReadReply.dataOf [] :=
  read_negative_offset fsW 3 fileW [10, 20, 30] (-7) 4
    (by decide) (by decide) (by decide) (by decide) (by decide) (by decide)

/-- A client whose namespace list request fails. -/
def clientFail : CoreV1Client :=
  { namespacesList := Except.error ()
    configmapsList := fun _ => Except.error () }

/-- Claim C2: if the namespace list request fails, `init` reports a fatal
`EIO` and the filesystem never becomes queryable: the mount is aborted, so
every subsequent `lookup`, `getattr`, and `readdir` fails. -/
theorem init_failure_fatal (client : CoreV1Client) (now : Nat) (e : Unit)
    (h : client.namespacesList = Except.error e) :
    (KubeFilesystem.init client now KubeFilesystem.new).2 = some FsError.EIO ∧
    mountFS client now = none ∧
    (∀ parent name, mountedLookup (mountFS client now) parent name =
      Except.error FsError.EIO) ∧
    (∀ ino, mountedGetattr (mountFS client now) ino = Except.error FsError.EIO) ∧
    (∀ ino offset cap, mountedReaddir (mountFS client now) ino offset cap =
      Except.error FsError.EIO) := by
  have h1 : KubeFilesystem.init client now KubeFilesystem.new =
      ({ KubeFilesystem.new with
          inodes := kvInsert 1 root_node (KubeFilesystem.new).inodes },
        some FsError.EIO) :=
    init_error_eq h
  have h2 : mountFS client now = none := by
    simp [mountFS, h1]
  refine ⟨by rw [h1], h2, ?_, ?_, ?_⟩
  · intro parent name
    simp [mountedLookup, h2]
  · intro ino
    simp [mountedGetattr, h2]
  · intro ino offset cap
    simp [mountedReaddir, h2]

/-- Witness for C2 with a concrete failing client. -/
theorem init_failure_fatal_witness :
    (KubeFilesystem.init clientFail 0 KubeFilesystem.new).2 = some FsError.EIO ∧
    mountFS clientFail 0 = none ∧
    mountedLookup (mountFS clientFail 0) 1 "default" = Except.error FsError.EIO ∧
    mountedGetattr (mountFS clientFail 0) 1 = Except.error FsError.EIO ∧
    mountedReaddir (mountFS clientFail 0) 1 0 10 = Except.error FsError.EIO := by
  obtain ⟨a, b, c, d, e⟩ := init_failure_fatal clientFail 0 () rfl
  exact ⟨a, b, c 1 "default", d 1, e 1 0 10⟩

theorem addOffsets_shift (o : Int) (k : Nat) :
    ∀ (t : List (Nat × FileType × String)) (i : Nat),
      addOffsets (o + (k : Int)) i t = addOffsets o (k + i) t := by
  intro t
  induction t with
  | nil => intro i; rfl
  | cons e rest ih =>
    intro i
    simp only [addOffsets]
    have hx : o + (k : Int) + (i : Int) + 1 = o + (((k + i : Nat)) : Int) + 1 := by
      push_cast
      ring
    rw [hx, ih (i + 1), show k + (i + 1) = (k + i) + 1 from by omega]

theorem addOffsets_append (o : Int) :
    ∀ (t : List (Nat × FileType × String)) (i cap cap' : Nat),
      addOffsets o i (t.take cap) ++ addOffsets o (i + cap) ((t.drop cap).take cap') =
        addOffsets o i (t.take (cap + cap')) := by
  intro t
  induction t with
  | nil =>
    intro i cap cap'
    simp [addOffsets]
  | cons e rest ih =>
    intro i cap cap'
    cases cap with
    | zero => simp [addOffsets]
    | succ c =>
      simp only [List.take_succ_cons, List.drop_succ_cons, addOffsets, List.cons_append]
      rw [show i + (c + 1) = (i + 1) + c from by omega]
      rw [ih (i + 1) c cap']
      rw [show c + 1 + cap' = (c + cap') + 1 from by omega]
      simp [List.take_succ_cons, addOffsets]

theorem filterMap_children_forall₂ (t : InodeTable) :
    ∀ (ch : NodeChildren), (∀ q ∈ ch, (findNode t q.2).isSome = true) →
      List.Forall₂ (fun p e => ∃ c, findNode t p.2 = some c ∧
          e = (p.2, c.attrs.kind, c.name))
        ch (ch.filterMap (fun p =>
          (findNode t p.2).map (fun c => (p.2, c.attrs.kind, c.name)))) := by
  intro ch
  induction ch with
  | nil => intro _; exact List.Forall₂.nil
  | cons q rest ih =>
    intro h
    obtain ⟨c, hc⟩ := Option.isSome_iff_exists.mp (h q (List.mem_cons_self _ _))
    rw [List.filterMap_cons, hc]
    simp only [Option.map_some']
    exact List.Forall₂.cons ⟨c, hc, rfl⟩
      (ih fun q' hq' => h q' (List.mem_cons_of_mem _ hq'))

/-- Claim C4: `readdir` fails with `ENOENT` on an unknown inode and
`ENOTDIR` on a non-directory; on a directory it enumerates `.` (this
inode), `..` bound to the root inode 1 (not the true parent), then every
child in stored order, skipping the first `offset` entries and tagging
delivered entries with increasing next-offsets, so that a partial reply can
be resumed seamlessly at the next offset. -/
theorem readdir_spec (fs : KubeFilesystem) (inode : Nat) (offset : Int) (cap : Nat) :
    (findNode fs.inodes inode = none →
      readdir fs inode offset cap = Except.error FsError.ENOENT) ∧
    (∀ n, findNode fs.inodes inode = some n → n.attrs.kind ≠ FileType.Directory →
      readdir fs inode offset cap = Except.error FsError.ENOTDIR) ∧
    (∀ n ch, findNode fs.inodes inode = some n → n.attrs.kind = FileType.Directory →
      n.content = NodeContent.Children ch → 0 ≤ offset → offset < 2 ^ 63 →
      (readdir fs inode offset cap = Except.ok (addOffsets offset 0
        ((((inode, FileType.Directory, ".") :: (1, FileType.Directory, "..") ::
          ch.filterMap (fun p => (findNode fs.inodes p.2).map
            (fun c => (p.2, c.attrs.kind, c.name)))).drop offset.toNat).take cap)) ∧
        (NoDangling fs →
          List.Forall₂ (fun p e => ∃ c, findNode fs.inodes p.2 = some c ∧
              e = (p.2, c.attrs.kind, c.name)) ch
            (ch.filterMap (fun p => (findNode fs.inodes p.2).map
              (fun c => (p.2, c.attrs.kind, c.name))))))) ∧
    (∀ cap' l l', 0 ≤ offset → offset + cap < 2 ^ 63 →
      readdir fs inode offset cap = Except.ok l →
      readdir fs inode (offset + cap) cap' = Except.ok l' →
      readdir fs inode offset (cap + cap') = Except.ok (l ++ l')) := by
  refine ⟨?_, ?_, ?_, ?_⟩
  · intro h
    simp [readdir, h]
  · intro n h hk
    simp [readdir, h, hk]
  · intro n ch h hk hc h0 h63
    rw [show (2 : Int) ^ 63 = 9223372036854775808 from by norm_num] at h63
    have hskip : (offset.emod 18446744073709551616).toNat = offset.toNat := by
      have he : offset.emod 18446744073709551616 = offset % 18446744073709551616 := rfl
      rw [he]
      omega
    constructor
    · simp [readdir, h, hk, hc, hskip]
    · intro hnd
      apply filterMap_children_forall₂
      intro q hq
      refine hnd _ (findNode_mem h) q ?_
      simp only [nodeRefs, hc]
      exact hq
  · intro cap' l l' h0 hsum h1 h2
    cases hfn : findNode fs.inodes inode with
    | none => simp [readdir, hfn] at h1
    | some n =>
      by_cases hk : n.attrs.kind = FileType.Directory
      · cases hcn : n.content with
        | Bytes d => simp [readdir, hfn, hcn, hk] at h1
        | Children ch =>
          rw [show (2 : Int) ^ 63 = 9223372036854775808 from by norm_num] at hsum
          have hs1 : (offset.emod (2 ^ 64)).toNat = offset.toNat := by
            have he : offset.emod (2 ^ 64) = offset % 18446744073709551616 := by
              show offset % (2 ^ 64) = _
              norm_num
            rw [he]
            omega
          have hs2 : ((offset + (cap : Int)).emod (2 ^ 64)).toNat =
              offset.toNat + cap := by
            have he : (offset + (cap : Int)).emod (2 ^ 64) =
                (offset + (cap : Int)) % 18446744073709551616 := by
              show (offset + (cap : Int)) % (2 ^ 64) = _
              norm_num
            rw [he]
            omega
          simp only [readdir, hfn, hcn, hk, ne_eq, not_true_eq_false, if_false,
            ite_false, Except.ok.injEq] at h1 h2 ⊢
          rw [hs1] at h1 ⊢
          rw [hs2] at h2
          rw [← h1, ← h2]
          rw [addOffsets_shift offset cap _ 0]
          rw [show List.drop (offset.toNat + cap)
              ((inode, FileType.Directory, ".") :: (1, FileType.Directory, "..") ::
                ch.filterMap (fun p => (findNode fs.inodes p.2).map
                  (fun c => (p.2, c.attrs.kind, c.name)))) =
            (((inode, FileType.Directory, ".") :: (1, FileType.Directory, "..") ::
                ch.filterMap (fun p => (findNode fs.inodes p.2).map
                  (fun c => (p.2, c.attrs.kind, c.name)))).drop offset.toNat).drop cap
            from by rw [List.drop_drop]]
          rw [show cap + 0 = 0 + cap from by omega]
          exact (addOffsets_append offset _ 0 cap cap').symm
      · simp [readdir, hfn, hk] at h1

/-- Witness for C4 on the concrete table `fsW`: unknown inode, file inode,
full directory enumeration, and a resumed enumeration. -/
theorem readdir_spec_witness :
    readdir fsW 99 0 10 = Except.error FsError.ENOENT ∧
    readdir fsW 3 0 10 = Except.error FsError.ENOTDIR ∧
    readdir fsW 1 0 10 = Except.ok
      [(1, 1, FileType.Directory, "."), (1, 2, FileType.Directory, ".."),
        (2, 3, FileType.Directory, "ns")] ∧
    readdir fsW 1 0 (2 + 1) = Except.ok
      ([(1, 1, FileType.Directory, "."), (1, 2, FileType.Directory, "..")] ++
        [(2, 3, FileType.Directory, "ns")]) := by
  refine ⟨?_, ?_, ?_, ?_⟩
  · exact (readdir_spec fsW 99 0 10).1 (by decide)
  · exact (readdir_spec fsW 3 0 10).2.1 fileW (by decide) (by decide)
  · exact (((readdir_spec fsW 1 0 10).2.2.1 rootW [("ns", 2)] (by decide) (by decide)
      (by decide) (by decide) (by decide)).1).trans (by decide)
  · exact (readdir_spec fsW 1 0 2).2.2.2 1
      [(1, 1, FileType.Directory, "."), (1, 2, FileType.Directory, "..")]
      [(2, 3, FileType.Directory, "ns")]
      (by decide) (by decide) (by decide) (by decide)

/-- The single-namespace client of the C1 counterexample: the `default`
namespace's configmap list request fails. -/
def clientC1 : CoreV1Client :=
  { namespacesList := Except.ok
      [ { metadata := { name := some "default", creation_timestamp := some 5 }
          yaml := [97, 98, 99] } ]
    configmapsList := fun _ => Except.error () }

/-- Counterexample to C1 as stated: after a build in which the configmap
list request for `default` failed, looking up "configmaps" in that
namespace's directory does NOT fail with NotFound — it succeeds, returning
an (empty) directory, because `create_configmaps_node` registers and
inserts the `configmaps` node even on the error path (kubefuse.rs lines
195-259). -/
theorem configmaps_failure_lookup_cex :
    (KubeFilesystem.init clientC1 0 KubeFilesystem.new).2 = none ∧
    namespaceInode (KubeFilesystem.init clientC1 0 KubeFilesystem.new).1.inodes
      "default" = some 2 ∧
    lookup (KubeFilesystem.init clientC1 0 KubeFilesystem.new).1 2 "configmaps" ≠
      Except.error FsError.ENOENT ∧
    lookup (KubeFilesystem.init clientC1 0 KubeFilesystem.new).1 2 "configmaps" =
      Except.ok (TTL, (configmaps_dir_node 4 0).attrs) := by
  decide

/-- Claim C1 (amended): if the configmap list request for a namespace fails
during the build, that namespace KEEPS a `configmaps` child that is an
empty directory: after initialization, looking up "configmaps" in that
namespace's directory succeeds and returns the empty directory's
attributes; the build continues non-fatally with the other namespaces. -/
theorem configmaps_failure_empty_dir
    (client : CoreV1Client) (now : Nat) (a b : String) (t1 t2 : Option Int)
    (y1 y2 : List Nat) (hab : a ≠ b)
    (hns : client.namespacesList = Except.ok [⟨⟨some a, t1⟩, y1⟩, ⟨⟨some b, t2⟩, y2⟩])
    (hcma : client.configmapsList a = Except.error ()) :
    ∃ fs i2, KubeFilesystem.init client now KubeFilesystem.new = (fs, none) ∧
      namespaceInode fs.inodes a = some 2 ∧
      findNode fs.inodes 4 = some (configmaps_dir_node 4 now) ∧
      (configmaps_dir_node 4 now).content = NodeContent.Children [] ∧
      lookup fs 2 "configmaps" = Except.ok (TTL, (configmaps_dir_node 4 now).attrs) ∧
      namespaceInode fs.inodes b = some i2 ∧
      ∃ n2, findNode fs.inodes i2 = some n2 ∧ n2.name = b ∧
        n2.attrs.kind = FileType.Directory ∧
        lookup fs 1 b = Except.ok (TTL, n2.attrs) := by
  have hba : ¬ b = a := fun h => hab h.symm
  have hinit : KubeFilesystem.init client now KubeFilesystem.new =
      initLoop client now ⟨[(1, root_node)], 2⟩ [⟨⟨some a, t1⟩, y1⟩, ⟨⟨some b, t2⟩, y2⟩] := by
    rw [init_ok_eq hns]
    rfl
  have hfs2a : create_namespace_node ⟨[(1, root_node)], 3⟩ 2 (⟨⟨some a, t1⟩, y1⟩ : KubeObject) =
      ⟨[(1, root_node), (2, ns_dir_node (⟨⟨some a, t1⟩, y1⟩ : KubeObject) 2 3), (3, ns_manifest_node (⟨⟨some a, t1⟩, y1⟩ : KubeObject) 3)], 4⟩ := rfl
  have hstep1 : initLoop client now ⟨[(1, root_node)], 2⟩
        [⟨⟨some a, t1⟩, y1⟩, ⟨⟨some b, t2⟩, y2⟩] =
      initLoop client now (create_configmaps_node client now ⟨[(1, root_with_child root_node a 2 []), (2, ns_dir_node (⟨⟨some a, t1⟩, y1⟩ : KubeObject) 2 3), (3, ns_manifest_node (⟨⟨some a, t1⟩, y1⟩ : KubeObject) 3)], 4⟩ a)
        [⟨⟨some b, t2⟩, y2⟩] :=
    @initLoop_cons_root_children client now ⟨[(1, root_node)], 2⟩
      ⟨[(1, root_node), (2, ns_dir_node (⟨⟨some a, t1⟩, y1⟩ : KubeObject) 2 3), (3, ns_manifest_node (⟨⟨some a, t1⟩, y1⟩ : KubeObject) 3)], 4⟩
      (⟨⟨some a, t1⟩, y1⟩ : KubeObject) [⟨⟨some b, t2⟩, y2⟩] a root_node []
      rfl hfs2a rfl rfl
  have hniA : namespaceInode (⟨[(1, root_with_child root_node a 2 []), (2, ns_dir_node (⟨⟨some a, t1⟩, y1⟩ : KubeObject) 2 3), (3, ns_manifest_node (⟨⟨some a, t1⟩, y1⟩ : KubeObject) 3)], 4⟩ : KubeFilesystem).inodes a = some 2 := by
    simp [namespaceInode, findNode, kvFind, root_with_child, kvInsert]
  have hfnA : findNode (⟨[(1, root_with_child root_node a 2 []), (2, ns_dir_node (⟨⟨some a, t1⟩, y1⟩ : KubeObject) 2 3), (3, ns_manifest_node (⟨⟨some a, t1⟩, y1⟩ : KubeObject) 3)], 4⟩ : KubeFilesystem).inodes 2 = some (ns_dir_node (⟨⟨some a, t1⟩, y1⟩ : KubeObject) 2 3) := rfl
  have hccA : (ns_dir_node (⟨⟨some a, t1⟩, y1⟩ : KubeObject) 2 3).content = NodeContent.Children [("manifest.yaml", 3)] := rfl
  have hccnA : create_configmaps_node client now ⟨[(1, root_with_child root_node a 2 []), (2, ns_dir_node (⟨⟨some a, t1⟩, y1⟩ : KubeObject) 2 3), (3, ns_manifest_node (⟨⟨some a, t1⟩, y1⟩ : KubeObject) 3)], 4⟩ a = ⟨[(1, root_with_child root_node a 2 []), (2, { name := (ns_dir_node (⟨⟨some a, t1⟩, y1⟩ : KubeObject) 2 3).name, attrs := (ns_dir_node (⟨⟨some a, t1⟩, y1⟩ : KubeObject) 2 3).attrs, content := NodeContent.Children [("manifest.yaml", 3), ("configmaps", 4)] }), (3, ns_manifest_node (⟨⟨some a, t1⟩, y1⟩ : KubeObject) 3), (4, configmaps_dir_node 4 now)], 5⟩ := by
    rw [@create_configmaps_node_err client now ⟨[(1, root_with_child root_node a 2 []), (2, ns_dir_node (⟨⟨some a, t1⟩, y1⟩ : KubeObject) 2 3), (3, ns_manifest_node (⟨⟨some a, t1⟩, y1⟩ : KubeObject) 3)], 4⟩ a 2 (ns_dir_node (⟨⟨some a, t1⟩, y1⟩ : KubeObject) 2 3)
      [("manifest.yaml", 3)] () hniA hfnA hccA hcma]
    rfl
  have hfs2b : create_namespace_node ⟨[(1, root_with_child root_node a 2 []), (2, { name := (ns_dir_node (⟨⟨some a, t1⟩, y1⟩ : KubeObject) 2 3).name, attrs := (ns_dir_node (⟨⟨some a, t1⟩, y1⟩ : KubeObject) 2 3).attrs, content := NodeContent.Children [("manifest.yaml", 3), ("configmaps", 4)] }), (3, ns_manifest_node (⟨⟨some a, t1⟩, y1⟩ : KubeObject) 3), (4, configmaps_dir_node 4 now)], 6⟩ 5 (⟨⟨some b, t2⟩, y2⟩ : KubeObject) = ⟨[(1, root_with_child root_node a 2 []), (2, { name := (ns_dir_node (⟨⟨some a, t1⟩, y1⟩ : KubeObject) 2 3).name, attrs := (ns_dir_node (⟨⟨some a, t1⟩, y1⟩ : KubeObject) 2 3).attrs, content := NodeContent.Children [("manifest.yaml", 3), ("configmaps", 4)] }), (3, ns_manifest_node (⟨⟨some a, t1⟩, y1⟩ : KubeObject) 3), (4, configmaps_dir_node 4 now), (5, ns_dir_node (⟨⟨some b, t2⟩, y2⟩ : KubeObject) 5 6), (6, ns_manifest_node (⟨⟨some b, t2⟩, y2⟩ : KubeObject) 6)], 7⟩ := rfl
  have hstep2 : initLoop client now ⟨[(1, root_with_child root_node a 2 []), (2, { name := (ns_dir_node (⟨⟨some a, t1⟩, y1⟩ : KubeObject) 2 3).name, attrs := (ns_dir_node (⟨⟨some a, t1⟩, y1⟩ : KubeObject) 2 3).attrs, content := NodeContent.Children [("manifest.yaml", 3), ("configmaps", 4)] }), (3, ns_manifest_node (⟨⟨some a, t1⟩, y1⟩ : KubeObject) 3), (4, configmaps_dir_node 4 now)], 5⟩ [⟨⟨some b, t2⟩, y2⟩] =
      initLoop client now (create_configmaps_node client now ⟨[(1, root_with_child (root_with_child root_node a 2 []) b 5 [(a, 2)]), (2, { name := (ns_dir_node (⟨⟨some a, t1⟩, y1⟩ : KubeObject) 2 3).name, attrs := (ns_dir_node (⟨⟨some a, t1⟩, y1⟩ : KubeObject) 2 3).attrs, content := NodeContent.Children [("manifest.yaml", 3), ("configmaps", 4)] }), (3, ns_manifest_node (⟨⟨some a, t1⟩, y1⟩ : KubeObject) 3), (4, configmaps_dir_node 4 now), (5, ns_dir_node (⟨⟨some b, t2⟩, y2⟩ : KubeObject) 5 6), (6, ns_manifest_node (⟨⟨some b, t2⟩, y2⟩ : KubeObject) 6)], 7⟩ b) [] :=
    @initLoop_cons_root_children client now ⟨[(1, root_with_child root_node a 2 []), (2, { name := (ns_dir_node (⟨⟨some a, t1⟩, y1⟩ : KubeObject) 2 3).name, attrs := (ns_dir_node (⟨⟨some a, t1⟩, y1⟩ : KubeObject) 2 3).attrs, content := NodeContent.Children [("manifest.yaml", 3), ("configmaps", 4)] }), (3, ns_manifest_node (⟨⟨some a, t1⟩, y1⟩ : KubeObject) 3), (4, configmaps_dir_node 4 now)], 5⟩ ⟨[(1, root_with_child root_node a 2 []), (2, { name := (ns_dir_node (⟨⟨some a, t1⟩, y1⟩ : KubeObject) 2 3).name, attrs := (ns_dir_node (⟨⟨some a, t1⟩, y1⟩ : KubeObject) 2 3).attrs, content := NodeContent.Children [("manifest.yaml", 3), ("configmaps", 4)] }), (3, ns_manifest_node (⟨⟨some a, t1⟩, y1⟩ : KubeObject) 3), (4, configmaps_dir_node 4 now), (5, ns_dir_node (⟨⟨some b, t2⟩, y2⟩ : KubeObject) 5 6), (6, ns_manifest_node (⟨⟨some b, t2⟩, y2⟩ : KubeObject) 6)], 7⟩
      (⟨⟨some b, t2⟩, y2⟩ : KubeObject) [] b (root_with_child root_node a 2 []) [(a, 2)]
      rfl hfs2b rfl rfl
  have hfinal : KubeFilesystem.init client now KubeFilesystem.new = (create_configmaps_node client now ⟨[(1, root_with_child (root_with_child root_node a 2 []) b 5 [(a, 2)]), (2, { name := (ns_dir_node (⟨⟨some a, t1⟩, y1⟩ : KubeObject) 2 3).name, attrs := (ns_dir_node (⟨⟨some a, t1⟩, y1⟩ : KubeObject) 2 3).attrs, content := NodeContent.Children [("manifest.yaml", 3), ("configmaps", 4)] }), (3, ns_manifest_node (⟨⟨some a, t1⟩, y1⟩ : KubeObject) 3), (4, configmaps_dir_node 4 now), (5, ns_dir_node (⟨⟨some b, t2⟩, y2⟩ : KubeObject) 5 6), (6, ns_manifest_node (⟨⟨some b, t2⟩, y2⟩ : KubeObject) 6)], 7⟩ b, none) := by
    rw [hinit, hstep1, hccnA, hstep2]
    rfl
  have hniB : namespaceInode (⟨[(1, root_with_child (root_with_child root_node a 2 []) b 5 [(a, 2)]), (2, { name := (ns_dir_node (⟨⟨some a, t1⟩, y1⟩ : KubeObject) 2 3).name, attrs := (ns_dir_node (⟨⟨some a, t1⟩, y1⟩ : KubeObject) 2 3).attrs, content := NodeContent.Children [("manifest.yaml", 3), ("configmaps", 4)] }), (3, ns_manifest_node (⟨⟨some a, t1⟩, y1⟩ : KubeObject) 3), (4, configmaps_dir_node 4 now), (5, ns_dir_node (⟨⟨some b, t2⟩, y2⟩ : KubeObject) 5 6), (6, ns_manifest_node (⟨⟨some b, t2⟩, y2⟩ : KubeObject) 6)], 7⟩ : KubeFilesystem).inodes b = some 5 := by
    simp [namespaceInode, findNode, kvFind, root_with_child, kvInsert, hba]
  have hns1 : ∀ j, namespaceInode (⟨[(1, root_with_child (root_with_child root_node a 2 []) b 5 [(a, 2)]), (2, { name := (ns_dir_node (⟨⟨some a, t1⟩, y1⟩ : KubeObject) 2 3).name, attrs := (ns_dir_node (⟨⟨some a, t1⟩, y1⟩ : KubeObject) 2 3).attrs, content := NodeContent.Children [("manifest.yaml", 3), ("configmaps", 4)] }), (3, ns_manifest_node (⟨⟨some a, t1⟩, y1⟩ : KubeObject) 3), (4, configmaps_dir_node 4 now), (5, ns_dir_node (⟨⟨some b, t2⟩, y2⟩ : KubeObject) 5 6), (6, ns_manifest_node (⟨⟨some b, t2⟩, y2⟩ : KubeObject) 6)], 7⟩ : KubeFilesystem).inodes b = some j →
      j ≠ 1 := by
    intro j hj
    rw [hniB] at hj
    injection hj with hj
    omega
  have hns2 : ∀ j, namespaceInode (⟨[(1, root_with_child (root_with_child root_node a 2 []) b 5 [(a, 2)]), (2, { name := (ns_dir_node (⟨⟨some a, t1⟩, y1⟩ : KubeObject) 2 3).name, attrs := (ns_dir_node (⟨⟨some a, t1⟩, y1⟩ : KubeObject) 2 3).attrs, content := NodeContent.Children [("manifest.yaml", 3), ("configmaps", 4)] }), (3, ns_manifest_node (⟨⟨some a, t1⟩, y1⟩ : KubeObject) 3), (4, configmaps_dir_node 4 now), (5, ns_dir_node (⟨⟨some b, t2⟩, y2⟩ : KubeObject) 5 6), (6, ns_manifest_node (⟨⟨some b, t2⟩, y2⟩ : KubeObject) 6)], 7⟩ : KubeFilesystem).inodes b = some j →
      j ≠ 2 := by
    intro j hj
    rw [hniB] at hj
    injection hj with hj
    omega
  have hns4 : ∀ j, namespaceInode (⟨[(1, root_with_child (root_with_child root_node a 2 []) b 5 [(a, 2)]), (2, { name := (ns_dir_node (⟨⟨some a, t1⟩, y1⟩ : KubeObject) 2 3).name, attrs := (ns_dir_node (⟨⟨some a, t1⟩, y1⟩ : KubeObject) 2 3).attrs, content := NodeContent.Children [("manifest.yaml", 3), ("configmaps", 4)] }), (3, ns_manifest_node (⟨⟨some a, t1⟩, y1⟩ : KubeObject) 3), (4, configmaps_dir_node 4 now), (5, ns_dir_node (⟨⟨some b, t2⟩, y2⟩ : KubeObject) 5 6), (6, ns_manifest_node (⟨⟨some b, t2⟩, y2⟩ : KubeObject) 6)], 7⟩ : KubeFilesystem).inodes b = some j →
      j ≠ 4 := by
    intro j hj
    rw [hniB] at hj
    injection hj with hj
    omega
  have P1 : findNode (create_configmaps_node client now ⟨[(1, root_with_child (root_with_child root_node a 2 []) b 5 [(a, 2)]), (2, { name := (ns_dir_node (⟨⟨some a, t1⟩, y1⟩ : KubeObject) 2 3).name, attrs := (ns_dir_node (⟨⟨some a, t1⟩, y1⟩ : KubeObject) 2 3).attrs, content := NodeContent.Children [("manifest.yaml", 3), ("configmaps", 4)] }), (3, ns_manifest_node (⟨⟨some a, t1⟩, y1⟩ : KubeObject) 3), (4, configmaps_dir_node 4 now), (5, ns_dir_node (⟨⟨some b, t2⟩, y2⟩ : KubeObject) 5 6), (6, ns_manifest_node (⟨⟨some b, t2⟩, y2⟩ : KubeObject) 6)], 7⟩ b).inodes 1 = some (root_with_child (root_with_child root_node a 2 []) b 5 [(a, 2)]) := by
    rw [@ccn_findNode_lt client now ⟨[(1, root_with_child (root_with_child root_node a 2 []) b 5 [(a, 2)]), (2, { name := (ns_dir_node (⟨⟨some a, t1⟩, y1⟩ : KubeObject) 2 3).name, attrs := (ns_dir_node (⟨⟨some a, t1⟩, y1⟩ : KubeObject) 2 3).attrs, content := NodeContent.Children [("manifest.yaml", 3), ("configmaps", 4)] }), (3, ns_manifest_node (⟨⟨some a, t1⟩, y1⟩ : KubeObject) 3), (4, configmaps_dir_node 4 now), (5, ns_dir_node (⟨⟨some b, t2⟩, y2⟩ : KubeObject) 5 6), (6, ns_manifest_node (⟨⟨some b, t2⟩, y2⟩ : KubeObject) 6)], 7⟩ b 1 (show (1 : Nat) < 7 from by decide) hns1]
    rfl
  have P2 : findNode (create_configmaps_node client now ⟨[(1, root_with_child (root_with_child root_node a 2 []) b 5 [(a, 2)]), (2, { name := (ns_dir_node (⟨⟨some a, t1⟩, y1⟩ : KubeObject) 2 3).name, attrs := (ns_dir_node (⟨⟨some a, t1⟩, y1⟩ : KubeObject) 2 3).attrs, content := NodeContent.Children [("manifest.yaml", 3), ("configmaps", 4)] }), (3, ns_manifest_node (⟨⟨some a, t1⟩, y1⟩ : KubeObject) 3), (4, configmaps_dir_node 4 now), (5, ns_dir_node (⟨⟨some b, t2⟩, y2⟩ : KubeObject) 5 6), (6, ns_manifest_node (⟨⟨some b, t2⟩, y2⟩ : KubeObject) 6)], 7⟩ b).inodes 2 = some ({ name := (ns_dir_node (⟨⟨some a, t1⟩, y1⟩ : KubeObject) 2 3).name, attrs := (ns_dir_node (⟨⟨some a, t1⟩, y1⟩ : KubeObject) 2 3).attrs, content := NodeContent.Children [("manifest.yaml", 3), ("configmaps", 4)] }) := by
    rw [@ccn_findNode_lt client now ⟨[(1, root_with_child (root_with_child root_node a 2 []) b 5 [(a, 2)]), (2, { name := (ns_dir_node (⟨⟨some a, t1⟩, y1⟩ : KubeObject) 2 3).name, attrs := (ns_dir_node (⟨⟨some a, t1⟩, y1⟩ : KubeObject) 2 3).attrs, content := NodeContent.Children [("manifest.yaml", 3), ("configmaps", 4)] }), (3, ns_manifest_node (⟨⟨some a, t1⟩, y1⟩ : KubeObject) 3), (4, configmaps_dir_node 4 now), (5, ns_dir_node (⟨⟨some b, t2⟩, y2⟩ : KubeObject) 5 6), (6, ns_manifest_node (⟨⟨some b, t2⟩, y2⟩ : KubeObject) 6)], 7⟩ b 2 (show (2 : Nat) < 7 from by decide) hns2]
    rfl
  have P4 : findNode (create_configmaps_node client now ⟨[(1, root_with_child (root_with_child root_node a 2 []) b 5 [(a, 2)]), (2, { name := (ns_dir_node (⟨⟨some a, t1⟩, y1⟩ : KubeObject) 2 3).name, attrs := (ns_dir_node (⟨⟨some a, t1⟩, y1⟩ : KubeObject) 2 3).attrs, content := NodeContent.Children [("manifest.yaml", 3), ("configmaps", 4)] }), (3, ns_manifest_node (⟨⟨some a, t1⟩, y1⟩ : KubeObject) 3), (4, configmaps_dir_node 4 now), (5, ns_dir_node (⟨⟨some b, t2⟩, y2⟩ : KubeObject) 5 6), (6, ns_manifest_node (⟨⟨some b, t2⟩, y2⟩ : KubeObject) 6)], 7⟩ b).inodes 4 = some (configmaps_dir_node 4 now) := by
    rw [@ccn_findNode_lt client now ⟨[(1, root_with_child (root_with_child root_node a 2 []) b 5 [(a, 2)]), (2, { name := (ns_dir_node (⟨⟨some a, t1⟩, y1⟩ : KubeObject) 2 3).name, attrs := (ns_dir_node (⟨⟨some a, t1⟩, y1⟩ : KubeObject) 2 3).attrs, content := NodeContent.Children [("manifest.yaml", 3), ("configmaps", 4)] }), (3, ns_manifest_node (⟨⟨some a, t1⟩, y1⟩ : KubeObject) 3), (4, configmaps_dir_node 4 now), (5, ns_dir_node (⟨⟨some b, t2⟩, y2⟩ : KubeObject) 5 6), (6, ns_manifest_node (⟨⟨some b, t2⟩, y2⟩ : KubeObject) 6)], 7⟩ b 4 (show (4 : Nat) < 7 from by decide) hns4]
    rfl
  have P5 : Option.map (fun n => (n.name, n.attrs)) (findNode (create_configmaps_node client now ⟨[(1, root_with_child (root_with_child root_node a 2 []) b 5 [(a, 2)]), (2, { name := (ns_dir_node (⟨⟨some a, t1⟩, y1⟩ : KubeObject) 2 3).name, attrs := (ns_dir_node (⟨⟨some a, t1⟩, y1⟩ : KubeObject) 2 3).attrs, content := NodeContent.Children [("manifest.yaml", 3), ("configmaps", 4)] }), (3, ns_manifest_node (⟨⟨some a, t1⟩, y1⟩ : KubeObject) 3), (4, configmaps_dir_node 4 now), (5, ns_dir_node (⟨⟨some b, t2⟩, y2⟩ : KubeObject) 5 6), (6, ns_manifest_node (⟨⟨some b, t2⟩, y2⟩ : KubeObject) 6)], 7⟩ b).inodes 5) =
      some ((ns_dir_node (⟨⟨some b, t2⟩, y2⟩ : KubeObject) 5 6).name, (ns_dir_node (⟨⟨some b, t2⟩, y2⟩ : KubeObject) 5 6).attrs) := by
    rw [@ccn_findNode_map_lt client now ⟨[(1, root_with_child (root_with_child root_node a 2 []) b 5 [(a, 2)]), (2, { name := (ns_dir_node (⟨⟨some a, t1⟩, y1⟩ : KubeObject) 2 3).name, attrs := (ns_dir_node (⟨⟨some a, t1⟩, y1⟩ : KubeObject) 2 3).attrs, content := NodeContent.Children [("manifest.yaml", 3), ("configmaps", 4)] }), (3, ns_manifest_node (⟨⟨some a, t1⟩, y1⟩ : KubeObject) 3), (4, configmaps_dir_node 4 now), (5, ns_dir_node (⟨⟨some b, t2⟩, y2⟩ : KubeObject) 5 6), (6, ns_manifest_node (⟨⟨some b, t2⟩, y2⟩ : KubeObject) 6)], 7⟩ b 5 (show (5 : Nat) < 7 from by decide)]
    rfl
  obtain ⟨n2, hn2, hn2p⟩ := Option.map_eq_some'.mp P5
  have hname : n2.name = b := by
    have hx := congrArg Prod.fst hn2p
    simpa [ns_dir_node] using hx
  have hattrs : n2.attrs = (ns_dir_node (⟨⟨some b, t2⟩, y2⟩ : KubeObject) 5 6).attrs := congrArg Prod.snd hn2p
  have hkf : kvFind "configmaps" [("manifest.yaml", 3), ("configmaps", 4)] = some 4 := by
    decide
  have hR2c : (root_with_child (root_with_child root_node a 2 []) b 5 [(a, 2)]).content =
      NodeContent.Children [(a, 2), (b, 5)] := by
    simp [root_with_child, kvInsert, hba]
  refine ⟨create_configmaps_node client now ⟨[(1, root_with_child (root_with_child root_node a 2 []) b 5 [(a, 2)]), (2, { name := (ns_dir_node (⟨⟨some a, t1⟩, y1⟩ : KubeObject) 2 3).name, attrs := (ns_dir_node (⟨⟨some a, t1⟩, y1⟩ : KubeObject) 2 3).attrs, content := NodeContent.Children [("manifest.yaml", 3), ("configmaps", 4)] }), (3, ns_manifest_node (⟨⟨some a, t1⟩, y1⟩ : KubeObject) 3), (4, configmaps_dir_node 4 now), (5, ns_dir_node (⟨⟨some b, t2⟩, y2⟩ : KubeObject) 5 6), (6, ns_manifest_node (⟨⟨some b, t2⟩, y2⟩ : KubeObject) 6)], 7⟩ b, 5, hfinal, ?_, P4, rfl, ?_, ?_, n2, hn2, hname, ?_, ?_⟩
  · simp [namespaceInode, P1, hR2c, kvFind]
  · simp [lookup, P2, P4, hkf]
  · simp [namespaceInode, P1, hR2c, kvFind, hba]
  · rw [hattrs]
    rfl
  · simp [lookup, P1, hR2c, kvFind, hba, hn2]

/-- The two-namespace client of the C1-amended witness: every configmap
list request fails. -/
def clientC1b : CoreV1Client :=
  { namespacesList := Except.ok
      [⟨⟨some "alpha", none⟩, [1]⟩, ⟨⟨some "beta", some 3⟩, [2, 2]⟩]
    configmapsList := fun _ => Except.error () }

/-- Witness for the amended C1 at a concrete client. -/
theorem configmaps_failure_empty_dir_witness :
    ∃ fs i2, KubeFilesystem.init clientC1b 0 KubeFilesystem.new = (fs, none) ∧
      namespaceInode fs.inodes "alpha" = some 2 ∧
      findNode fs.inodes 4 = some (configmaps_dir_node 4 0) ∧
      (configmaps_dir_node 4 0).content = NodeContent.Children [] ∧
      lookup fs 2 "configmaps" = Except.ok (TTL, (configmaps_dir_node 4 0).attrs) ∧
      namespaceInode fs.inodes "beta" = some i2 ∧
      ∃ n2, findNode fs.inodes i2 = some n2 ∧ n2.name = "beta" ∧
        n2.attrs.kind = FileType.Directory ∧
        lookup fs 1 "beta" = Except.ok (TTL, n2.attrs) :=
  configmaps_failure_empty_dir clientC1b 0 "alpha" "beta" none (some 3) [1] [2, 2]
    (by decide) rfl rfl

/-- Modelled from the spec: `Filesystem::readdir` (lines 349-394) with the
iteration order of the child map made an explicit parameter.  The Rust code
enumerates a `HashMap<String, u64>`, whose iteration order the standard
library leaves unspecified; the spec likewise leaves enumeration order
"unspecified beyond stable within a single build".  `order` stands for the
enumeration order the map's internal state realises, constrained (by the
theorems below) only to be a permutation of the stored entries. -/
def readdirOrd (order : List (String × Nat) → List (String × Nat))
    (fs : KubeFilesystem) (inode : Nat) (offset : Int) (cap : Nat) :
    Except FsError (List (Nat × Int × FileType × String)) :=
  match findNode fs.inodes inode with
  | none => Except.error FsError.ENOENT
  | some node =>
    if node.attrs.kind ≠ FileType.Directory then Except.error FsError.ENOTDIR
    else
      match node.content with
      | NodeContent.Bytes _ => Except.error FsError.ENOTDIR
      | NodeContent.Children children =>
        let entries : List (Nat × FileType × String) :=
          (inode, FileType.Directory, ".") :: (1, FileType.Directory, "..") ::
            (order children).filterMap (fun p =>
              (findNode fs.inodes p.2).map (fun c => (p.2, c.attrs.kind, c.name)))
        Except.ok
          (addOffsets offset 0 ((entries.drop (offset.emod (2 ^ 64)).toNat).take cap))

/-- A permutation of a two-element list is that list or its swap. -/
theorem perm_pair_cases {α : Type} {l : List α} {x y : α} (h : l.Perm [x, y]) :
    l = [x, y] ∨ l = [y, x] := by
  have hlen : l.length = 2 := by simpa using h.length_eq
  obtain ⟨u, v, rfl⟩ : ∃ u v, l = [u, v] := by
    match l, hlen with
    | [u, v], _ => exact ⟨u, v, rfl⟩
  have hu : u ∈ [x, y] := h.mem_iff.mp (List.mem_cons_self u [v])
  rcases List.mem_pair.mp hu with rfl | rfl
  · have hv : v = y := by simpa using List.perm_singleton.mp h.cons_inv
    exact Or.inl (by rw [hv])
  · have hv : v = x := by
      have hswap : List.Perm [u, v] [u, x] := h.trans (List.Perm.swap u x [])
      simpa using List.perm_singleton.mp hswap.cons_inv
    exact Or.inr (by rw [hv])

/-- A concrete client with two named namespaces (`alpha` then `beta`
upstream), used by C5's counterexample and witness. -/
def clientB5 : CoreV1Client :=
  { namespacesList := Except.ok [⟨⟨some "alpha", some 0⟩, [1, 2]⟩, ⟨⟨some "beta", some 0⟩, [3]⟩],
    configmapsList := fun ns => if ns = "alpha" then Except.ok [⟨⟨some "cm", some 0⟩, [7]⟩] else Except.error () }

/-- Counterexample to claim C5 as stated: the child map is a hash map whose
iteration order is unspecified, so "children in build order" is not
guaranteed.  Under the reversed enumeration order — admissible, being a
permutation of the stored entries — `readdir(1, 0)` on a root built from
upstream namespaces `alpha` then `beta` lists `beta` before `alpha`. -/
theorem readdir_root_build_order_cex :
    (∀ (l : List (String × Nat)), (List.reverse l).Perm l) ∧
    clientB5.namespacesList = Except.ok
      [⟨⟨some "alpha", some 0⟩, [1, 2]⟩, ⟨⟨some "beta", some 0⟩, [3]⟩] ∧
    (KubeFilesystem.init clientB5 0 KubeFilesystem.new).2 = none ∧
    readdirOrd List.reverse (KubeFilesystem.init clientB5 0 KubeFilesystem.new).1 1 0 4 =
      Except.ok
        [(1, 1, FileType.Directory, "."), (1, 2, FileType.Directory, ".."),
         (6, 3, FileType.Directory, "beta"), (2, 4, FileType.Directory, "alpha")] ∧
    Except.map (List.map (fun e => e.2.2.2))
        (readdirOrd List.reverse (KubeFilesystem.init clientB5 0 KubeFilesystem.new).1 1 0 4) ≠
      Except.ok [".", "..", "alpha", "beta"] :=
  ⟨fun l => List.reverse_perm l, by decide⟩

/-- Claim C5 (amended): after a build in which the upstream returned exactly
two named namespaces, `readdir(1, 0)` on the root yields exactly 4 entries —
`.`, `..` (bound to the root inode), then the two namespace directories —
under EVERY admissible iteration order of the child map (any permutation of
the stored entries); the two namespace entries appear in some order, each
exactly once, with consecutive reply offsets 3 and 4. -/
theorem readdir_root_two_namespaces_any_order
    (client : CoreV1Client) (now : Nat) (a b : String) (t1 t2 : Option Int)
    (y1 y2 : List Nat) (cap : Nat)
    (order : List (String × Nat) → List (String × Nat))
    (horder : ∀ l, (order l).Perm l) (hab : a ≠ b) (hcap : 4 ≤ cap)
    (hns : client.namespacesList = Except.ok [⟨⟨some a, t1⟩, y1⟩, ⟨⟨some b, t2⟩, y2⟩]) :
    ∃ fs i2 k1 n1 k2 n2, KubeFilesystem.init client now KubeFilesystem.new = (fs, none) ∧
      5 ≤ i2 ∧ List.Perm [(k1, n1), (k2, n2)] [(2, a), (i2, b)] ∧
      readdirOrd order fs 1 0 cap = Except.ok
        [(1, 1, FileType.Directory, "."), (1, 2, FileType.Directory, ".."),
         (k1, 3, FileType.Directory, n1), (k2, 4, FileType.Directory, n2)] := by
  have hba : ¬ b = a := fun h => hab h.symm
  have hinit : KubeFilesystem.init client now KubeFilesystem.new =
      initLoop client now ⟨[(1, root_node)], 2⟩ [⟨⟨some a, t1⟩, y1⟩, ⟨⟨some b, t2⟩, y2⟩] := by
    rw [init_ok_eq hns]
    rfl
  have hfs2a : create_namespace_node ⟨[(1, root_node)], 3⟩ 2 (⟨⟨some a, t1⟩, y1⟩ : KubeObject) =
      ⟨[(1, root_node), (2, ns_dir_node (⟨⟨some a, t1⟩, y1⟩ : KubeObject) 2 3), (3, ns_manifest_node (⟨⟨some a, t1⟩, y1⟩ : KubeObject) 3)], 4⟩ := rfl
  have hstep1 : initLoop client now ⟨[(1, root_node)], 2⟩
        [⟨⟨some a, t1⟩, y1⟩, ⟨⟨some b, t2⟩, y2⟩] =
      initLoop client now (create_configmaps_node client now ⟨[(1, root_with_child root_node a 2 []), (2, ns_dir_node (⟨⟨some a, t1⟩, y1⟩ : KubeObject) 2 3), (3, ns_manifest_node (⟨⟨some a, t1⟩, y1⟩ : KubeObject) 3)], 4⟩ a) [⟨⟨some b, t2⟩, y2⟩] :=
    @initLoop_cons_root_children client now ⟨[(1, root_node)], 2⟩
      ⟨[(1, root_node), (2, ns_dir_node (⟨⟨some a, t1⟩, y1⟩ : KubeObject) 2 3), (3, ns_manifest_node (⟨⟨some a, t1⟩, y1⟩ : KubeObject) 3)], 4⟩
      (⟨⟨some a, t1⟩, y1⟩ : KubeObject) [⟨⟨some b, t2⟩, y2⟩] a root_node []
      rfl hfs2a rfl rfl
  have hniA : namespaceInode (⟨[(1, root_with_child root_node a 2 []), (2, ns_dir_node (⟨⟨some a, t1⟩, y1⟩ : KubeObject) 2 3), (3, ns_manifest_node (⟨⟨some a, t1⟩, y1⟩ : KubeObject) 3)], 4⟩ : KubeFilesystem).inodes a = some 2 := by
    simp [namespaceInode, findNode, kvFind, root_with_child, kvInsert]
  have hnsA1 : ∀ j, namespaceInode (⟨[(1, root_with_child root_node a 2 []), (2, ns_dir_node (⟨⟨some a, t1⟩, y1⟩ : KubeObject) 2 3), (3, ns_manifest_node (⟨⟨some a, t1⟩, y1⟩ : KubeObject) 3)], 4⟩ : KubeFilesystem).inodes a = some j →
      j ≠ 1 := by
    intro j hj
    rw [hniA] at hj
    injection hj with hj
    omega
  have h5i2 : 4 < (create_configmaps_node client now ⟨[(1, root_with_child root_node a 2 []), (2, ns_dir_node (⟨⟨some a, t1⟩, y1⟩ : KubeObject) 2 3), (3, ns_manifest_node (⟨⟨some a, t1⟩, y1⟩ : KubeObject) 3)], 4⟩ a).inode_counter := ccn_counter_lt client now ⟨[(1, root_with_child root_node a 2 []), (2, ns_dir_node (⟨⟨some a, t1⟩, y1⟩ : KubeObject) 2 3), (3, ns_manifest_node (⟨⟨some a, t1⟩, y1⟩ : KubeObject) 3)], 4⟩ a
  have F1 : findNode (create_configmaps_node client now ⟨[(1, root_with_child root_node a 2 []), (2, ns_dir_node (⟨⟨some a, t1⟩, y1⟩ : KubeObject) 2 3), (3, ns_manifest_node (⟨⟨some a, t1⟩, y1⟩ : KubeObject) 3)], 4⟩ a).inodes 1 = some (root_with_child root_node a 2 []) := by
    rw [@ccn_findNode_lt client now ⟨[(1, root_with_child root_node a 2 []), (2, ns_dir_node (⟨⟨some a, t1⟩, y1⟩ : KubeObject) 2 3), (3, ns_manifest_node (⟨⟨some a, t1⟩, y1⟩ : KubeObject) 3)], 4⟩ a 1 (show (1 : Nat) < 4 from by decide) hnsA1]
    rfl
  have F2 : Option.map (fun n => (n.name, n.attrs)) (findNode (create_configmaps_node client now ⟨[(1, root_with_child root_node a 2 []), (2, ns_dir_node (⟨⟨some a, t1⟩, y1⟩ : KubeObject) 2 3), (3, ns_manifest_node (⟨⟨some a, t1⟩, y1⟩ : KubeObject) 3)], 4⟩ a).inodes 2) =
      some ((ns_dir_node (⟨⟨some a, t1⟩, y1⟩ : KubeObject) 2 3).name, (ns_dir_node (⟨⟨some a, t1⟩, y1⟩ : KubeObject) 2 3).attrs) := by
    rw [@ccn_findNode_map_lt client now ⟨[(1, root_with_child root_node a 2 []), (2, ns_dir_node (⟨⟨some a, t1⟩, y1⟩ : KubeObject) 2 3), (3, ns_manifest_node (⟨⟨some a, t1⟩, y1⟩ : KubeObject) 3)], 4⟩ a 2 (show (2 : Nat) < 4 from by decide)]
    rfl
  have hrB : findNode (create_namespace_node ⟨(create_configmaps_node client now ⟨[(1, root_with_child root_node a 2 []), (2, ns_dir_node (⟨⟨some a, t1⟩, y1⟩ : KubeObject) 2 3), (3, ns_manifest_node (⟨⟨some a, t1⟩, y1⟩ : KubeObject) 3)], 4⟩ a).inodes, (create_configmaps_node client now ⟨[(1, root_with_child root_node a 2 []), (2, ns_dir_node (⟨⟨some a, t1⟩, y1⟩ : KubeObject) 2 3), (3, ns_manifest_node (⟨⟨some a, t1⟩, y1⟩ : KubeObject) 3)], 4⟩ a).inode_counter + 1⟩ ((create_configmaps_node client now ⟨[(1, root_with_child root_node a 2 []), (2, ns_dir_node (⟨⟨some a, t1⟩, y1⟩ : KubeObject) 2 3), (3, ns_manifest_node (⟨⟨some a, t1⟩, y1⟩ : KubeObject) 3)], 4⟩ a).inode_counter) (⟨⟨some b, t2⟩, y2⟩ : KubeObject)).inodes 1 = some (root_with_child root_node a 2 []) := by
    rw [@create_namespace_node_findNode_ne ⟨(create_configmaps_node client now ⟨[(1, root_with_child root_node a 2 []), (2, ns_dir_node (⟨⟨some a, t1⟩, y1⟩ : KubeObject) 2 3), (3, ns_manifest_node (⟨⟨some a, t1⟩, y1⟩ : KubeObject) 3)], 4⟩ a).inodes, (create_configmaps_node client now ⟨[(1, root_with_child root_node a 2 []), (2, ns_dir_node (⟨⟨some a, t1⟩, y1⟩ : KubeObject) 2 3), (3, ns_manifest_node (⟨⟨some a, t1⟩, y1⟩ : KubeObject) 3)], 4⟩ a).inode_counter + 1⟩ ((create_configmaps_node client now ⟨[(1, root_with_child root_node a 2 []), (2, ns_dir_node (⟨⟨some a, t1⟩, y1⟩ : KubeObject) 2 3), (3, ns_manifest_node (⟨⟨some a, t1⟩, y1⟩ : KubeObject) 3)], 4⟩ a).inode_counter) 1 (⟨⟨some b, t2⟩, y2⟩ : KubeObject)
      (show (1 : Nat) ≠ (create_configmaps_node client now ⟨[(1, root_with_child root_node a 2 []), (2, ns_dir_node (⟨⟨some a, t1⟩, y1⟩ : KubeObject) 2 3), (3, ns_manifest_node (⟨⟨some a, t1⟩, y1⟩ : KubeObject) 3)], 4⟩ a).inode_counter from by omega)
      (show (1 : Nat) ≠ (⟨(create_configmaps_node client now ⟨[(1, root_with_child root_node a 2 []), (2, ns_dir_node (⟨⟨some a, t1⟩, y1⟩ : KubeObject) 2 3), (3, ns_manifest_node (⟨⟨some a, t1⟩, y1⟩ : KubeObject) 3)], 4⟩ a).inodes, (create_configmaps_node client now ⟨[(1, root_with_child root_node a 2 []), (2, ns_dir_node (⟨⟨some a, t1⟩, y1⟩ : KubeObject) 2 3), (3, ns_manifest_node (⟨⟨some a, t1⟩, y1⟩ : KubeObject) 3)], 4⟩ a).inode_counter + 1⟩ : KubeFilesystem).inode_counter from by
        show (1 : Nat) ≠ (create_configmaps_node client now ⟨[(1, root_with_child root_node a 2 []), (2, ns_dir_node (⟨⟨some a, t1⟩, y1⟩ : KubeObject) 2 3), (3, ns_manifest_node (⟨⟨some a, t1⟩, y1⟩ : KubeObject) 3)], 4⟩ a).inode_counter + 1
        omega)]
    exact F1
  have hstep2 : initLoop client now (create_configmaps_node client now ⟨[(1, root_with_child root_node a 2 []), (2, ns_dir_node (⟨⟨some a, t1⟩, y1⟩ : KubeObject) 2 3), (3, ns_manifest_node (⟨⟨some a, t1⟩, y1⟩ : KubeObject) 3)], 4⟩ a) [⟨⟨some b, t2⟩, y2⟩] =
      initLoop client now (create_configmaps_node client now (⟨kvInsert 1 (root_with_child (root_with_child root_node a 2 []) b ((create_configmaps_node client now ⟨[(1, root_with_child root_node a 2 []), (2, ns_dir_node (⟨⟨some a, t1⟩, y1⟩ : KubeObject) 2 3), (3, ns_manifest_node (⟨⟨some a, t1⟩, y1⟩ : KubeObject) 3)], 4⟩ a).inode_counter) [(a, 2)]) (create_namespace_node ⟨(create_configmaps_node client now ⟨[(1, root_with_child root_node a 2 []), (2, ns_dir_node (⟨⟨some a, t1⟩, y1⟩ : KubeObject) 2 3), (3, ns_manifest_node (⟨⟨some a, t1⟩, y1⟩ : KubeObject) 3)], 4⟩ a).inodes, (create_configmaps_node client now ⟨[(1, root_with_child root_node a 2 []), (2, ns_dir_node (⟨⟨some a, t1⟩, y1⟩ : KubeObject) 2 3), (3, ns_manifest_node (⟨⟨some a, t1⟩, y1⟩ : KubeObject) 3)], 4⟩ a).inode_counter + 1⟩ ((create_configmaps_node client now ⟨[(1, root_with_child root_node a 2 []), (2, ns_dir_node (⟨⟨some a, t1⟩, y1⟩ : KubeObject) 2 3), (3, ns_manifest_node (⟨⟨some a, t1⟩, y1⟩ : KubeObject) 3)], 4⟩ a).inode_counter) (⟨⟨some b, t2⟩, y2⟩ : KubeObject)).inodes, (create_configmaps_node client now ⟨[(1, root_with_child root_node a 2 []), (2, ns_dir_node (⟨⟨some a, t1⟩, y1⟩ : KubeObject) 2 3), (3, ns_manifest_node (⟨⟨some a, t1⟩, y1⟩ : KubeObject) 3)], 4⟩ a).inode_counter + 2⟩ : KubeFilesystem) b) [] :=
    @initLoop_cons_root_children client now (create_configmaps_node client now ⟨[(1, root_with_child root_node a 2 []), (2, ns_dir_node (⟨⟨some a, t1⟩, y1⟩ : KubeObject) 2 3), (3, ns_manifest_node (⟨⟨some a, t1⟩, y1⟩ : KubeObject) 3)], 4⟩ a) (create_namespace_node ⟨(create_configmaps_node client now ⟨[(1, root_with_child root_node a 2 []), (2, ns_dir_node (⟨⟨some a, t1⟩, y1⟩ : KubeObject) 2 3), (3, ns_manifest_node (⟨⟨some a, t1⟩, y1⟩ : KubeObject) 3)], 4⟩ a).inodes, (create_configmaps_node client now ⟨[(1, root_with_child root_node a 2 []), (2, ns_dir_node (⟨⟨some a, t1⟩, y1⟩ : KubeObject) 2 3), (3, ns_manifest_node (⟨⟨some a, t1⟩, y1⟩ : KubeObject) 3)], 4⟩ a).inode_counter + 1⟩ ((create_configmaps_node client now ⟨[(1, root_with_child root_node a 2 []), (2, ns_dir_node (⟨⟨some a, t1⟩, y1⟩ : KubeObject) 2 3), (3, ns_manifest_node (⟨⟨some a, t1⟩, y1⟩ : KubeObject) 3)], 4⟩ a).inode_counter) (⟨⟨some b, t2⟩, y2⟩ : KubeObject))
      (⟨⟨some b, t2⟩, y2⟩ : KubeObject) [] b (root_with_child root_node a 2 []) [(a, 2)] rfl rfl hrB rfl
  have hfinal : KubeFilesystem.init client now KubeFilesystem.new = (create_configmaps_node client now (⟨kvInsert 1 (root_with_child (root_with_child root_node a 2 []) b ((create_configmaps_node client now ⟨[(1, root_with_child root_node a 2 []), (2, ns_dir_node (⟨⟨some a, t1⟩, y1⟩ : KubeObject) 2 3), (3, ns_manifest_node (⟨⟨some a, t1⟩, y1⟩ : KubeObject) 3)], 4⟩ a).inode_counter) [(a, 2)]) (create_namespace_node ⟨(create_configmaps_node client now ⟨[(1, root_with_child root_node a 2 []), (2, ns_dir_node (⟨⟨some a, t1⟩, y1⟩ : KubeObject) 2 3), (3, ns_manifest_node (⟨⟨some a, t1⟩, y1⟩ : KubeObject) 3)], 4⟩ a).inodes, (create_configmaps_node client now ⟨[(1, root_with_child root_node a 2 []), (2, ns_dir_node (⟨⟨some a, t1⟩, y1⟩ : KubeObject) 2 3), (3, ns_manifest_node (⟨⟨some a, t1⟩, y1⟩ : KubeObject) 3)], 4⟩ a).inode_counter + 1⟩ ((create_configmaps_node client now ⟨[(1, root_with_child root_node a 2 []), (2, ns_dir_node (⟨⟨some a, t1⟩, y1⟩ : KubeObject) 2 3), (3, ns_manifest_node (⟨⟨some a, t1⟩, y1⟩ : KubeObject) 3)], 4⟩ a).inode_counter) (⟨⟨some b, t2⟩, y2⟩ : KubeObject)).inodes, (create_configmaps_node client now ⟨[(1, root_with_child root_node a 2 []), (2, ns_dir_node (⟨⟨some a, t1⟩, y1⟩ : KubeObject) 2 3), (3, ns_manifest_node (⟨⟨some a, t1⟩, y1⟩ : KubeObject) 3)], 4⟩ a).inode_counter + 2⟩ : KubeFilesystem) b, none) := by
    rw [hinit, hstep1, hstep2]
    rfl
  have hf1 : findNode (kvInsert 1 (root_with_child (root_with_child root_node a 2 []) b ((create_configmaps_node client now ⟨[(1, root_with_child root_node a 2 []), (2, ns_dir_node (⟨⟨some a, t1⟩, y1⟩ : KubeObject) 2 3), (3, ns_manifest_node (⟨⟨some a, t1⟩, y1⟩ : KubeObject) 3)], 4⟩ a).inode_counter) [(a, 2)]) (create_namespace_node ⟨(create_configmaps_node client now ⟨[(1, root_with_child root_node a 2 []), (2, ns_dir_node (⟨⟨some a, t1⟩, y1⟩ : KubeObject) 2 3), (3, ns_manifest_node (⟨⟨some a, t1⟩, y1⟩ : KubeObject) 3)], 4⟩ a).inodes, (create_configmaps_node client now ⟨[(1, root_with_child root_node a 2 []), (2, ns_dir_node (⟨⟨some a, t1⟩, y1⟩ : KubeObject) 2 3), (3, ns_manifest_node (⟨⟨some a, t1⟩, y1⟩ : KubeObject) 3)], 4⟩ a).inode_counter + 1⟩ ((create_configmaps_node client now ⟨[(1, root_with_child root_node a 2 []), (2, ns_dir_node (⟨⟨some a, t1⟩, y1⟩ : KubeObject) 2 3), (3, ns_manifest_node (⟨⟨some a, t1⟩, y1⟩ : KubeObject) 3)], 4⟩ a).inode_counter) (⟨⟨some b, t2⟩, y2⟩ : KubeObject)).inodes) 1 = some (root_with_child (root_with_child root_node a 2 []) b ((create_configmaps_node client now ⟨[(1, root_with_child root_node a 2 []), (2, ns_dir_node (⟨⟨some a, t1⟩, y1⟩ : KubeObject) 2 3), (3, ns_manifest_node (⟨⟨some a, t1⟩, y1⟩ : KubeObject) 3)], 4⟩ a).inode_counter) [(a, 2)]) := by
    rw [findNode_kvInsert]
    simp
  have hR2c : (root_with_child (root_with_child root_node a 2 []) b ((create_configmaps_node client now ⟨[(1, root_with_child root_node a 2 []), (2, ns_dir_node (⟨⟨some a, t1⟩, y1⟩ : KubeObject) 2 3), (3, ns_manifest_node (⟨⟨some a, t1⟩, y1⟩ : KubeObject) 3)], 4⟩ a).inode_counter) [(a, 2)]).content = NodeContent.Children [(a, 2), (b, (create_configmaps_node client now ⟨[(1, root_with_child root_node a 2 []), (2, ns_dir_node (⟨⟨some a, t1⟩, y1⟩ : KubeObject) 2 3), (3, ns_manifest_node (⟨⟨some a, t1⟩, y1⟩ : KubeObject) 3)], 4⟩ a).inode_counter)] := by
    simp [root_with_child, kvInsert, hba]
  have hniB : namespaceInode (⟨kvInsert 1 (root_with_child (root_with_child root_node a 2 []) b ((create_configmaps_node client now ⟨[(1, root_with_child root_node a 2 []), (2, ns_dir_node (⟨⟨some a, t1⟩, y1⟩ : KubeObject) 2 3), (3, ns_manifest_node (⟨⟨some a, t1⟩, y1⟩ : KubeObject) 3)], 4⟩ a).inode_counter) [(a, 2)]) (create_namespace_node ⟨(create_configmaps_node client now ⟨[(1, root_with_child root_node a 2 []), (2, ns_dir_node (⟨⟨some a, t1⟩, y1⟩ : KubeObject) 2 3), (3, ns_manifest_node (⟨⟨some a, t1⟩, y1⟩ : KubeObject) 3)], 4⟩ a).inodes, (create_configmaps_node client now ⟨[(1, root_with_child root_node a 2 []), (2, ns_dir_node (⟨⟨some a, t1⟩, y1⟩ : KubeObject) 2 3), (3, ns_manifest_node (⟨⟨some a, t1⟩, y1⟩ : KubeObject) 3)], 4⟩ a).inode_counter + 1⟩ ((create_configmaps_node client now ⟨[(1, root_with_child root_node a 2 []), (2, ns_dir_node (⟨⟨some a, t1⟩, y1⟩ : KubeObject) 2 3), (3, ns_manifest_node (⟨⟨some a, t1⟩, y1⟩ : KubeObject) 3)], 4⟩ a).inode_counter) (⟨⟨some b, t2⟩, y2⟩ : KubeObject)).inodes, (create_configmaps_node client now ⟨[(1, root_with_child root_node a 2 []), (2, ns_dir_node (⟨⟨some a, t1⟩, y1⟩ : KubeObject) 2 3), (3, ns_manifest_node (⟨⟨some a, t1⟩, y1⟩ : KubeObject) 3)], 4⟩ a).inode_counter + 2⟩ : KubeFilesystem).inodes b = some ((create_configmaps_node client now ⟨[(1, root_with_child root_node a 2 []), (2, ns_dir_node (⟨⟨some a, t1⟩, y1⟩ : KubeObject) 2 3), (3, ns_manifest_node (⟨⟨some a, t1⟩, y1⟩ : KubeObject) 3)], 4⟩ a).inode_counter) := by
    simp [namespaceInode, hf1, hR2c, kvFind, hba]
  have hnsb1 : ∀ j, namespaceInode (⟨kvInsert 1 (root_with_child (root_with_child root_node a 2 []) b ((create_configmaps_node client now ⟨[(1, root_with_child root_node a 2 []), (2, ns_dir_node (⟨⟨some a, t1⟩, y1⟩ : KubeObject) 2 3), (3, ns_manifest_node (⟨⟨some a, t1⟩, y1⟩ : KubeObject) 3)], 4⟩ a).inode_counter) [(a, 2)]) (create_namespace_node ⟨(create_configmaps_node client now ⟨[(1, root_with_child root_node a 2 []), (2, ns_dir_node (⟨⟨some a, t1⟩, y1⟩ : KubeObject) 2 3), (3, ns_manifest_node (⟨⟨some a, t1⟩, y1⟩ : KubeObject) 3)], 4⟩ a).inodes, (create_configmaps_node client now ⟨[(1, root_with_child root_node a 2 []), (2, ns_dir_node (⟨⟨some a, t1⟩, y1⟩ : KubeObject) 2 3), (3, ns_manifest_node (⟨⟨some a, t1⟩, y1⟩ : KubeObject) 3)], 4⟩ a).inode_counter + 1⟩ ((create_configmaps_node client now ⟨[(1, root_with_child root_node a 2 []), (2, ns_dir_node (⟨⟨some a, t1⟩, y1⟩ : KubeObject) 2 3), (3, ns_manifest_node (⟨⟨some a, t1⟩, y1⟩ : KubeObject) 3)], 4⟩ a).inode_counter) (⟨⟨some b, t2⟩, y2⟩ : KubeObject)).inodes, (create_configmaps_node client now ⟨[(1, root_with_child root_node a 2 []), (2, ns_dir_node (⟨⟨some a, t1⟩, y1⟩ : KubeObject) 2 3), (3, ns_manifest_node (⟨⟨some a, t1⟩, y1⟩ : KubeObject) 3)], 4⟩ a).inode_counter + 2⟩ : KubeFilesystem).inodes b = some j → j ≠ 1 := by
    intro j hj
    rw [hniB] at hj
    injection hj with hj
    omega
  have hnsb2 : ∀ j, namespaceInode (⟨kvInsert 1 (root_with_child (root_with_child root_node a 2 []) b ((create_configmaps_node client now ⟨[(1, root_with_child root_node a 2 []), (2, ns_dir_node (⟨⟨some a, t1⟩, y1⟩ : KubeObject) 2 3), (3, ns_manifest_node (⟨⟨some a, t1⟩, y1⟩ : KubeObject) 3)], 4⟩ a).inode_counter) [(a, 2)]) (create_namespace_node ⟨(create_configmaps_node client now ⟨[(1, root_with_child root_node a 2 []), (2, ns_dir_node (⟨⟨some a, t1⟩, y1⟩ : KubeObject) 2 3), (3, ns_manifest_node (⟨⟨some a, t1⟩, y1⟩ : KubeObject) 3)], 4⟩ a).inodes, (create_configmaps_node client now ⟨[(1, root_with_child root_node a 2 []), (2, ns_dir_node (⟨⟨some a, t1⟩, y1⟩ : KubeObject) 2 3), (3, ns_manifest_node (⟨⟨some a, t1⟩, y1⟩ : KubeObject) 3)], 4⟩ a).inode_counter + 1⟩ ((create_configmaps_node client now ⟨[(1, root_with_child root_node a 2 []), (2, ns_dir_node (⟨⟨some a, t1⟩, y1⟩ : KubeObject) 2 3), (3, ns_manifest_node (⟨⟨some a, t1⟩, y1⟩ : KubeObject) 3)], 4⟩ a).inode_counter) (⟨⟨some b, t2⟩, y2⟩ : KubeObject)).inodes, (create_configmaps_node client now ⟨[(1, root_with_child root_node a 2 []), (2, ns_dir_node (⟨⟨some a, t1⟩, y1⟩ : KubeObject) 2 3), (3, ns_manifest_node (⟨⟨some a, t1⟩, y1⟩ : KubeObject) 3)], 4⟩ a).inode_counter + 2⟩ : KubeFilesystem).inodes b = some j → j ≠ 2 := by
    intro j hj
    rw [hniB] at hj
    injection hj with hj
    omega
  have G1 : findNode (create_configmaps_node client now (⟨kvInsert 1 (root_with_child (root_with_child root_node a 2 []) b ((create_configmaps_node client now ⟨[(1, root_with_child root_node a 2 []), (2, ns_dir_node (⟨⟨some a, t1⟩, y1⟩ : KubeObject) 2 3), (3, ns_manifest_node (⟨⟨some a, t1⟩, y1⟩ : KubeObject) 3)], 4⟩ a).inode_counter) [(a, 2)]) (create_namespace_node ⟨(create_configmaps_node client now ⟨[(1, root_with_child root_node a 2 []), (2, ns_dir_node (⟨⟨some a, t1⟩, y1⟩ : KubeObject) 2 3), (3, ns_manifest_node (⟨⟨some a, t1⟩, y1⟩ : KubeObject) 3)], 4⟩ a).inodes, (create_configmaps_node client now ⟨[(1, root_with_child root_node a 2 []), (2, ns_dir_node (⟨⟨some a, t1⟩, y1⟩ : KubeObject) 2 3), (3, ns_manifest_node (⟨⟨some a, t1⟩, y1⟩ : KubeObject) 3)], 4⟩ a).inode_counter + 1⟩ ((create_configmaps_node client now ⟨[(1, root_with_child root_node a 2 []), (2, ns_dir_node (⟨⟨some a, t1⟩, y1⟩ : KubeObject) 2 3), (3, ns_manifest_node (⟨⟨some a, t1⟩, y1⟩ : KubeObject) 3)], 4⟩ a).inode_counter) (⟨⟨some b, t2⟩, y2⟩ : KubeObject)).inodes, (create_configmaps_node client now ⟨[(1, root_with_child root_node a 2 []), (2, ns_dir_node (⟨⟨some a, t1⟩, y1⟩ : KubeObject) 2 3), (3, ns_manifest_node (⟨⟨some a, t1⟩, y1⟩ : KubeObject) 3)], 4⟩ a).inode_counter + 2⟩ : KubeFilesystem) b).inodes 1 = some (root_with_child (root_with_child root_node a 2 []) b ((create_configmaps_node client now ⟨[(1, root_with_child root_node a 2 []), (2, ns_dir_node (⟨⟨some a, t1⟩, y1⟩ : KubeObject) 2 3), (3, ns_manifest_node (⟨⟨some a, t1⟩, y1⟩ : KubeObject) 3)], 4⟩ a).inode_counter) [(a, 2)]) := by
    rw [@ccn_findNode_lt client now (⟨kvInsert 1 (root_with_child (root_with_child root_node a 2 []) b ((create_configmaps_node client now ⟨[(1, root_with_child root_node a 2 []), (2, ns_dir_node (⟨⟨some a, t1⟩, y1⟩ : KubeObject) 2 3), (3, ns_manifest_node (⟨⟨some a, t1⟩, y1⟩ : KubeObject) 3)], 4⟩ a).inode_counter) [(a, 2)]) (create_namespace_node ⟨(create_configmaps_node client now ⟨[(1, root_with_child root_node a 2 []), (2, ns_dir_node (⟨⟨some a, t1⟩, y1⟩ : KubeObject) 2 3), (3, ns_manifest_node (⟨⟨some a, t1⟩, y1⟩ : KubeObject) 3)], 4⟩ a).inodes, (create_configmaps_node client now ⟨[(1, root_with_child root_node a 2 []), (2, ns_dir_node (⟨⟨some a, t1⟩, y1⟩ : KubeObject) 2 3), (3, ns_manifest_node (⟨⟨some a, t1⟩, y1⟩ : KubeObject) 3)], 4⟩ a).inode_counter + 1⟩ ((create_configmaps_node client now ⟨[(1, root_with_child root_node a 2 []), (2, ns_dir_node (⟨⟨some a, t1⟩, y1⟩ : KubeObject) 2 3), (3, ns_manifest_node (⟨⟨some a, t1⟩, y1⟩ : KubeObject) 3)], 4⟩ a).inode_counter) (⟨⟨some b, t2⟩, y2⟩ : KubeObject)).inodes, (create_configmaps_node client now ⟨[(1, root_with_child root_node a 2 []), (2, ns_dir_node (⟨⟨some a, t1⟩, y1⟩ : KubeObject) 2 3), (3, ns_manifest_node (⟨⟨some a, t1⟩, y1⟩ : KubeObject) 3)], 4⟩ a).inode_counter + 2⟩ : KubeFilesystem) b 1
      (show (1 : Nat) < (create_configmaps_node client now ⟨[(1, root_with_child root_node a 2 []), (2, ns_dir_node (⟨⟨some a, t1⟩, y1⟩ : KubeObject) 2 3), (3, ns_manifest_node (⟨⟨some a, t1⟩, y1⟩ : KubeObject) 3)], 4⟩ a).inode_counter + 2 from by omega) hnsb1]
    exact hf1
  have G2 : Option.map (fun n => (n.name, n.attrs)) (findNode (create_configmaps_node client now (⟨kvInsert 1 (root_with_child (root_with_child root_node a 2 []) b ((create_configmaps_node client now ⟨[(1, root_with_child root_node a 2 []), (2, ns_dir_node (⟨⟨some a, t1⟩, y1⟩ : KubeObject) 2 3), (3, ns_manifest_node (⟨⟨some a, t1⟩, y1⟩ : KubeObject) 3)], 4⟩ a).inode_counter) [(a, 2)]) (create_namespace_node ⟨(create_configmaps_node client now ⟨[(1, root_with_child root_node a 2 []), (2, ns_dir_node (⟨⟨some a, t1⟩, y1⟩ : KubeObject) 2 3), (3, ns_manifest_node (⟨⟨some a, t1⟩, y1⟩ : KubeObject) 3)], 4⟩ a).inodes, (create_configmaps_node client now ⟨[(1, root_with_child root_node a 2 []), (2, ns_dir_node (⟨⟨some a, t1⟩, y1⟩ : KubeObject) 2 3), (3, ns_manifest_node (⟨⟨some a, t1⟩, y1⟩ : KubeObject) 3)], 4⟩ a).inode_counter + 1⟩ ((create_configmaps_node client now ⟨[(1, root_with_child root_node a 2 []), (2, ns_dir_node (⟨⟨some a, t1⟩, y1⟩ : KubeObject) 2 3), (3, ns_manifest_node (⟨⟨some a, t1⟩, y1⟩ : KubeObject) 3)], 4⟩ a).inode_counter) (⟨⟨some b, t2⟩, y2⟩ : KubeObject)).inodes, (create_configmaps_node client now ⟨[(1, root_with_child root_node a 2 []), (2, ns_dir_node (⟨⟨some a, t1⟩, y1⟩ : KubeObject) 2 3), (3, ns_manifest_node (⟨⟨some a, t1⟩, y1⟩ : KubeObject) 3)], 4⟩ a).inode_counter + 2⟩ : KubeFilesystem) b).inodes 2) =
      some ((ns_dir_node (⟨⟨some a, t1⟩, y1⟩ : KubeObject) 2 3).name, (ns_dir_node (⟨⟨some a, t1⟩, y1⟩ : KubeObject) 2 3).attrs) := by
    rw [@ccn_findNode_map_lt client now (⟨kvInsert 1 (root_with_child (root_with_child root_node a 2 []) b ((create_configmaps_node client now ⟨[(1, root_with_child root_node a 2 []), (2, ns_dir_node (⟨⟨some a, t1⟩, y1⟩ : KubeObject) 2 3), (3, ns_manifest_node (⟨⟨some a, t1⟩, y1⟩ : KubeObject) 3)], 4⟩ a).inode_counter) [(a, 2)]) (create_namespace_node ⟨(create_configmaps_node client now ⟨[(1, root_with_child root_node a 2 []), (2, ns_dir_node (⟨⟨some a, t1⟩, y1⟩ : KubeObject) 2 3), (3, ns_manifest_node (⟨⟨some a, t1⟩, y1⟩ : KubeObject) 3)], 4⟩ a).inodes, (create_configmaps_node client now ⟨[(1, root_with_child root_node a 2 []), (2, ns_dir_node (⟨⟨some a, t1⟩, y1⟩ : KubeObject) 2 3), (3, ns_manifest_node (⟨⟨some a, t1⟩, y1⟩ : KubeObject) 3)], 4⟩ a).inode_counter + 1⟩ ((create_configmaps_node client now ⟨[(1, root_with_child root_node a 2 []), (2, ns_dir_node (⟨⟨some a, t1⟩, y1⟩ : KubeObject) 2 3), (3, ns_manifest_node (⟨⟨some a, t1⟩, y1⟩ : KubeObject) 3)], 4⟩ a).inode_counter) (⟨⟨some b, t2⟩, y2⟩ : KubeObject)).inodes, (create_configmaps_node client now ⟨[(1, root_with_child root_node a 2 []), (2, ns_dir_node (⟨⟨some a, t1⟩, y1⟩ : KubeObject) 2 3), (3, ns_manifest_node (⟨⟨some a, t1⟩, y1⟩ : KubeObject) 3)], 4⟩ a).inode_counter + 2⟩ : KubeFilesystem) b 2
      (show (2 : Nat) < (create_configmaps_node client now ⟨[(1, root_with_child root_node a 2 []), (2, ns_dir_node (⟨⟨some a, t1⟩, y1⟩ : KubeObject) 2 3), (3, ns_manifest_node (⟨⟨some a, t1⟩, y1⟩ : KubeObject) 3)], 4⟩ a).inode_counter + 2 from by omega)]
    have h62 : findNode (kvInsert 1 (root_with_child (root_with_child root_node a 2 []) b ((create_configmaps_node client now ⟨[(1, root_with_child root_node a 2 []), (2, ns_dir_node (⟨⟨some a, t1⟩, y1⟩ : KubeObject) 2 3), (3, ns_manifest_node (⟨⟨some a, t1⟩, y1⟩ : KubeObject) 3)], 4⟩ a).inode_counter) [(a, 2)]) (create_namespace_node ⟨(create_configmaps_node client now ⟨[(1, root_with_child root_node a 2 []), (2, ns_dir_node (⟨⟨some a, t1⟩, y1⟩ : KubeObject) 2 3), (3, ns_manifest_node (⟨⟨some a, t1⟩, y1⟩ : KubeObject) 3)], 4⟩ a).inodes, (create_configmaps_node client now ⟨[(1, root_with_child root_node a 2 []), (2, ns_dir_node (⟨⟨some a, t1⟩, y1⟩ : KubeObject) 2 3), (3, ns_manifest_node (⟨⟨some a, t1⟩, y1⟩ : KubeObject) 3)], 4⟩ a).inode_counter + 1⟩ ((create_configmaps_node client now ⟨[(1, root_with_child root_node a 2 []), (2, ns_dir_node (⟨⟨some a, t1⟩, y1⟩ : KubeObject) 2 3), (3, ns_manifest_node (⟨⟨some a, t1⟩, y1⟩ : KubeObject) 3)], 4⟩ a).inode_counter) (⟨⟨some b, t2⟩, y2⟩ : KubeObject)).inodes) 2 = findNode (create_namespace_node ⟨(create_configmaps_node client now ⟨[(1, root_with_child root_node a 2 []), (2, ns_dir_node (⟨⟨some a, t1⟩, y1⟩ : KubeObject) 2 3), (3, ns_manifest_node (⟨⟨some a, t1⟩, y1⟩ : KubeObject) 3)], 4⟩ a).inodes, (create_configmaps_node client now ⟨[(1, root_with_child root_node a 2 []), (2, ns_dir_node (⟨⟨some a, t1⟩, y1⟩ : KubeObject) 2 3), (3, ns_manifest_node (⟨⟨some a, t1⟩, y1⟩ : KubeObject) 3)], 4⟩ a).inode_counter + 1⟩ ((create_configmaps_node client now ⟨[(1, root_with_child root_node a 2 []), (2, ns_dir_node (⟨⟨some a, t1⟩, y1⟩ : KubeObject) 2 3), (3, ns_manifest_node (⟨⟨some a, t1⟩, y1⟩ : KubeObject) 3)], 4⟩ a).inode_counter) (⟨⟨some b, t2⟩, y2⟩ : KubeObject)).inodes 2 := by
      rw [findNode_kvInsert]
      simp
    have h52 : findNode (create_namespace_node ⟨(create_configmaps_node client now ⟨[(1, root_with_child root_node a 2 []), (2, ns_dir_node (⟨⟨some a, t1⟩, y1⟩ : KubeObject) 2 3), (3, ns_manifest_node (⟨⟨some a, t1⟩, y1⟩ : KubeObject) 3)], 4⟩ a).inodes, (create_configmaps_node client now ⟨[(1, root_with_child root_node a 2 []), (2, ns_dir_node (⟨⟨some a, t1⟩, y1⟩ : KubeObject) 2 3), (3, ns_manifest_node (⟨⟨some a, t1⟩, y1⟩ : KubeObject) 3)], 4⟩ a).inode_counter + 1⟩ ((create_configmaps_node client now ⟨[(1, root_with_child root_node a 2 []), (2, ns_dir_node (⟨⟨some a, t1⟩, y1⟩ : KubeObject) 2 3), (3, ns_manifest_node (⟨⟨some a, t1⟩, y1⟩ : KubeObject) 3)], 4⟩ a).inode_counter) (⟨⟨some b, t2⟩, y2⟩ : KubeObject)).inodes 2 = findNode (create_configmaps_node client now ⟨[(1, root_with_child root_node a 2 []), (2, ns_dir_node (⟨⟨some a, t1⟩, y1⟩ : KubeObject) 2 3), (3, ns_manifest_node (⟨⟨some a, t1⟩, y1⟩ : KubeObject) 3)], 4⟩ a).inodes 2 := by
      rw [@create_namespace_node_findNode_ne ⟨(create_configmaps_node client now ⟨[(1, root_with_child root_node a 2 []), (2, ns_dir_node (⟨⟨some a, t1⟩, y1⟩ : KubeObject) 2 3), (3, ns_manifest_node (⟨⟨some a, t1⟩, y1⟩ : KubeObject) 3)], 4⟩ a).inodes, (create_configmaps_node client now ⟨[(1, root_with_child root_node a 2 []), (2, ns_dir_node (⟨⟨some a, t1⟩, y1⟩ : KubeObject) 2 3), (3, ns_manifest_node (⟨⟨some a, t1⟩, y1⟩ : KubeObject) 3)], 4⟩ a).inode_counter + 1⟩ ((create_configmaps_node client now ⟨[(1, root_with_child root_node a 2 []), (2, ns_dir_node (⟨⟨some a, t1⟩, y1⟩ : KubeObject) 2 3), (3, ns_manifest_node (⟨⟨some a, t1⟩, y1⟩ : KubeObject) 3)], 4⟩ a).inode_counter) 2 (⟨⟨some b, t2⟩, y2⟩ : KubeObject)
        (show (2 : Nat) ≠ (create_configmaps_node client now ⟨[(1, root_with_child root_node a 2 []), (2, ns_dir_node (⟨⟨some a, t1⟩, y1⟩ : KubeObject) 2 3), (3, ns_manifest_node (⟨⟨some a, t1⟩, y1⟩ : KubeObject) 3)], 4⟩ a).inode_counter from by omega)
        (show (2 : Nat) ≠ (⟨(create_configmaps_node client now ⟨[(1, root_with_child root_node a 2 []), (2, ns_dir_node (⟨⟨some a, t1⟩, y1⟩ : KubeObject) 2 3), (3, ns_manifest_node (⟨⟨some a, t1⟩, y1⟩ : KubeObject) 3)], 4⟩ a).inodes, (create_configmaps_node client now ⟨[(1, root_with_child root_node a 2 []), (2, ns_dir_node (⟨⟨some a, t1⟩, y1⟩ : KubeObject) 2 3), (3, ns_manifest_node (⟨⟨some a, t1⟩, y1⟩ : KubeObject) 3)], 4⟩ a).inode_counter + 1⟩ : KubeFilesystem).inode_counter from by
          show (2 : Nat) ≠ (create_configmaps_node client now ⟨[(1, root_with_child root_node a 2 []), (2, ns_dir_node (⟨⟨some a, t1⟩, y1⟩ : KubeObject) 2 3), (3, ns_manifest_node (⟨⟨some a, t1⟩, y1⟩ : KubeObject) 3)], 4⟩ a).inode_counter + 1
          omega)]
    show Option.map _ (findNode (kvInsert 1 (root_with_child (root_with_child root_node a 2 []) b ((create_configmaps_node client now ⟨[(1, root_with_child root_node a 2 []), (2, ns_dir_node (⟨⟨some a, t1⟩, y1⟩ : KubeObject) 2 3), (3, ns_manifest_node (⟨⟨some a, t1⟩, y1⟩ : KubeObject) 3)], 4⟩ a).inode_counter) [(a, 2)]) (create_namespace_node ⟨(create_configmaps_node client now ⟨[(1, root_with_child root_node a 2 []), (2, ns_dir_node (⟨⟨some a, t1⟩, y1⟩ : KubeObject) 2 3), (3, ns_manifest_node (⟨⟨some a, t1⟩, y1⟩ : KubeObject) 3)], 4⟩ a).inodes, (create_configmaps_node client now ⟨[(1, root_with_child root_node a 2 []), (2, ns_dir_node (⟨⟨some a, t1⟩, y1⟩ : KubeObject) 2 3), (3, ns_manifest_node (⟨⟨some a, t1⟩, y1⟩ : KubeObject) 3)], 4⟩ a).inode_counter + 1⟩ ((create_configmaps_node client now ⟨[(1, root_with_child root_node a 2 []), (2, ns_dir_node (⟨⟨some a, t1⟩, y1⟩ : KubeObject) 2 3), (3, ns_manifest_node (⟨⟨some a, t1⟩, y1⟩ : KubeObject) 3)], 4⟩ a).inode_counter) (⟨⟨some b, t2⟩, y2⟩ : KubeObject)).inodes) 2) = _
    rw [h62, h52]
    exact F2
  have h5i : findNode (create_namespace_node ⟨(create_configmaps_node client now ⟨[(1, root_with_child root_node a 2 []), (2, ns_dir_node (⟨⟨some a, t1⟩, y1⟩ : KubeObject) 2 3), (3, ns_manifest_node (⟨⟨some a, t1⟩, y1⟩ : KubeObject) 3)], 4⟩ a).inodes, (create_configmaps_node client now ⟨[(1, root_with_child root_node a 2 []), (2, ns_dir_node (⟨⟨some a, t1⟩, y1⟩ : KubeObject) 2 3), (3, ns_manifest_node (⟨⟨some a, t1⟩, y1⟩ : KubeObject) 3)], 4⟩ a).inode_counter + 1⟩ ((create_configmaps_node client now ⟨[(1, root_with_child root_node a 2 []), (2, ns_dir_node (⟨⟨some a, t1⟩, y1⟩ : KubeObject) 2 3), (3, ns_manifest_node (⟨⟨some a, t1⟩, y1⟩ : KubeObject) 3)], 4⟩ a).inode_counter) (⟨⟨some b, t2⟩, y2⟩ : KubeObject)).inodes ((create_configmaps_node client now ⟨[(1, root_with_child root_node a 2 []), (2, ns_dir_node (⟨⟨some a, t1⟩, y1⟩ : KubeObject) 2 3), (3, ns_manifest_node (⟨⟨some a, t1⟩, y1⟩ : KubeObject) 3)], 4⟩ a).inode_counter) = some (ns_dir_node (⟨⟨some b, t2⟩, y2⟩ : KubeObject) ((create_configmaps_node client now ⟨[(1, root_with_child root_node a 2 []), (2, ns_dir_node (⟨⟨some a, t1⟩, y1⟩ : KubeObject) 2 3), (3, ns_manifest_node (⟨⟨some a, t1⟩, y1⟩ : KubeObject) 3)], 4⟩ a).inode_counter) ((create_configmaps_node client now ⟨[(1, root_with_child root_node a 2 []), (2, ns_dir_node (⟨⟨some a, t1⟩, y1⟩ : KubeObject) 2 3), (3, ns_manifest_node (⟨⟨some a, t1⟩, y1⟩ : KubeObject) 3)], 4⟩ a).inode_counter + 1)) := by
    rw [create_namespace_node_eq]
    show findNode (kvInsert ((⟨(create_configmaps_node client now ⟨[(1, root_with_child root_node a 2 []), (2, ns_dir_node (⟨⟨some a, t1⟩, y1⟩ : KubeObject) 2 3), (3, ns_manifest_node (⟨⟨some a, t1⟩, y1⟩ : KubeObject) 3)], 4⟩ a).inodes, (create_configmaps_node client now ⟨[(1, root_with_child root_node a 2 []), (2, ns_dir_node (⟨⟨some a, t1⟩, y1⟩ : KubeObject) 2 3), (3, ns_manifest_node (⟨⟨some a, t1⟩, y1⟩ : KubeObject) 3)], 4⟩ a).inode_counter + 1⟩ : KubeFilesystem).inode_counter)
      (ns_manifest_node (⟨⟨some b, t2⟩, y2⟩ : KubeObject) ((⟨(create_configmaps_node client now ⟨[(1, root_with_child root_node a 2 []), (2, ns_dir_node (⟨⟨some a, t1⟩, y1⟩ : KubeObject) 2 3), (3, ns_manifest_node (⟨⟨some a, t1⟩, y1⟩ : KubeObject) 3)], 4⟩ a).inodes, (create_configmaps_node client now ⟨[(1, root_with_child root_node a 2 []), (2, ns_dir_node (⟨⟨some a, t1⟩, y1⟩ : KubeObject) 2 3), (3, ns_manifest_node (⟨⟨some a, t1⟩, y1⟩ : KubeObject) 3)], 4⟩ a).inode_counter + 1⟩ : KubeFilesystem).inode_counter))
      (kvInsert ((create_configmaps_node client now ⟨[(1, root_with_child root_node a 2 []), (2, ns_dir_node (⟨⟨some a, t1⟩, y1⟩ : KubeObject) 2 3), (3, ns_manifest_node (⟨⟨some a, t1⟩, y1⟩ : KubeObject) 3)], 4⟩ a).inode_counter) (ns_dir_node (⟨⟨some b, t2⟩, y2⟩ : KubeObject) ((create_configmaps_node client now ⟨[(1, root_with_child root_node a 2 []), (2, ns_dir_node (⟨⟨some a, t1⟩, y1⟩ : KubeObject) 2 3), (3, ns_manifest_node (⟨⟨some a, t1⟩, y1⟩ : KubeObject) 3)], 4⟩ a).inode_counter)
        ((⟨(create_configmaps_node client now ⟨[(1, root_with_child root_node a 2 []), (2, ns_dir_node (⟨⟨some a, t1⟩, y1⟩ : KubeObject) 2 3), (3, ns_manifest_node (⟨⟨some a, t1⟩, y1⟩ : KubeObject) 3)], 4⟩ a).inodes, (create_configmaps_node client now ⟨[(1, root_with_child root_node a 2 []), (2, ns_dir_node (⟨⟨some a, t1⟩, y1⟩ : KubeObject) 2 3), (3, ns_manifest_node (⟨⟨some a, t1⟩, y1⟩ : KubeObject) 3)], 4⟩ a).inode_counter + 1⟩ : KubeFilesystem).inode_counter))
        ((⟨(create_configmaps_node client now ⟨[(1, root_with_child root_node a 2 []), (2, ns_dir_node (⟨⟨some a, t1⟩, y1⟩ : KubeObject) 2 3), (3, ns_manifest_node (⟨⟨some a, t1⟩, y1⟩ : KubeObject) 3)], 4⟩ a).inodes, (create_configmaps_node client now ⟨[(1, root_with_child root_node a 2 []), (2, ns_dir_node (⟨⟨some a, t1⟩, y1⟩ : KubeObject) 2 3), (3, ns_manifest_node (⟨⟨some a, t1⟩, y1⟩ : KubeObject) 3)], 4⟩ a).inode_counter + 1⟩ : KubeFilesystem).inodes))) ((create_configmaps_node client now ⟨[(1, root_with_child root_node a 2 []), (2, ns_dir_node (⟨⟨some a, t1⟩, y1⟩ : KubeObject) 2 3), (3, ns_manifest_node (⟨⟨some a, t1⟩, y1⟩ : KubeObject) 3)], 4⟩ a).inode_counter) = _
    rw [findNode_kvInsert,
      if_neg (show ¬ (((create_configmaps_node client now ⟨[(1, root_with_child root_node a 2 []), (2, ns_dir_node (⟨⟨some a, t1⟩, y1⟩ : KubeObject) 2 3), (3, ns_manifest_node (⟨⟨some a, t1⟩, y1⟩ : KubeObject) 3)], 4⟩ a).inode_counter) = (⟨(create_configmaps_node client now ⟨[(1, root_with_child root_node a 2 []), (2, ns_dir_node (⟨⟨some a, t1⟩, y1⟩ : KubeObject) 2 3), (3, ns_manifest_node (⟨⟨some a, t1⟩, y1⟩ : KubeObject) 3)], 4⟩ a).inodes, (create_configmaps_node client now ⟨[(1, root_with_child root_node a 2 []), (2, ns_dir_node (⟨⟨some a, t1⟩, y1⟩ : KubeObject) 2 3), (3, ns_manifest_node (⟨⟨some a, t1⟩, y1⟩ : KubeObject) 3)], 4⟩ a).inode_counter + 1⟩ : KubeFilesystem).inode_counter)
        from by
          show ¬ (((create_configmaps_node client now ⟨[(1, root_with_child root_node a 2 []), (2, ns_dir_node (⟨⟨some a, t1⟩, y1⟩ : KubeObject) 2 3), (3, ns_manifest_node (⟨⟨some a, t1⟩, y1⟩ : KubeObject) 3)], 4⟩ a).inode_counter) = (create_configmaps_node client now ⟨[(1, root_with_child root_node a 2 []), (2, ns_dir_node (⟨⟨some a, t1⟩, y1⟩ : KubeObject) 2 3), (3, ns_manifest_node (⟨⟨some a, t1⟩, y1⟩ : KubeObject) 3)], 4⟩ a).inode_counter + 1)
          omega),
      findNode_kvInsert, if_pos rfl]
  have Gi2 : Option.map (fun n => (n.name, n.attrs)) (findNode (create_configmaps_node client now (⟨kvInsert 1 (root_with_child (root_with_child root_node a 2 []) b ((create_configmaps_node client now ⟨[(1, root_with_child root_node a 2 []), (2, ns_dir_node (⟨⟨some a, t1⟩, y1⟩ : KubeObject) 2 3), (3, ns_manifest_node (⟨⟨some a, t1⟩, y1⟩ : KubeObject) 3)], 4⟩ a).inode_counter) [(a, 2)]) (create_namespace_node ⟨(create_configmaps_node client now ⟨[(1, root_with_child root_node a 2 []), (2, ns_dir_node (⟨⟨some a, t1⟩, y1⟩ : KubeObject) 2 3), (3, ns_manifest_node (⟨⟨some a, t1⟩, y1⟩ : KubeObject) 3)], 4⟩ a).inodes, (create_configmaps_node client now ⟨[(1, root_with_child root_node a 2 []), (2, ns_dir_node (⟨⟨some a, t1⟩, y1⟩ : KubeObject) 2 3), (3, ns_manifest_node (⟨⟨some a, t1⟩, y1⟩ : KubeObject) 3)], 4⟩ a).inode_counter + 1⟩ ((create_configmaps_node client now ⟨[(1, root_with_child root_node a 2 []), (2, ns_dir_node (⟨⟨some a, t1⟩, y1⟩ : KubeObject) 2 3), (3, ns_manifest_node (⟨⟨some a, t1⟩, y1⟩ : KubeObject) 3)], 4⟩ a).inode_counter) (⟨⟨some b, t2⟩, y2⟩ : KubeObject)).inodes, (create_configmaps_node client now ⟨[(1, root_with_child root_node a 2 []), (2, ns_dir_node (⟨⟨some a, t1⟩, y1⟩ : KubeObject) 2 3), (3, ns_manifest_node (⟨⟨some a, t1⟩, y1⟩ : KubeObject) 3)], 4⟩ a).inode_counter + 2⟩ : KubeFilesystem) b).inodes ((create_configmaps_node client now ⟨[(1, root_with_child root_node a 2 []), (2, ns_dir_node (⟨⟨some a, t1⟩, y1⟩ : KubeObject) 2 3), (3, ns_manifest_node (⟨⟨some a, t1⟩, y1⟩ : KubeObject) 3)], 4⟩ a).inode_counter)) =
      some ((ns_dir_node (⟨⟨some b, t2⟩, y2⟩ : KubeObject) ((create_configmaps_node client now ⟨[(1, root_with_child root_node a 2 []), (2, ns_dir_node (⟨⟨some a, t1⟩, y1⟩ : KubeObject) 2 3), (3, ns_manifest_node (⟨⟨some a, t1⟩, y1⟩ : KubeObject) 3)], 4⟩ a).inode_counter) ((create_configmaps_node client now ⟨[(1, root_with_child root_node a 2 []), (2, ns_dir_node (⟨⟨some a, t1⟩, y1⟩ : KubeObject) 2 3), (3, ns_manifest_node (⟨⟨some a, t1⟩, y1⟩ : KubeObject) 3)], 4⟩ a).inode_counter + 1)).name, (ns_dir_node (⟨⟨some b, t2⟩, y2⟩ : KubeObject) ((create_configmaps_node client now ⟨[(1, root_with_child root_node a 2 []), (2, ns_dir_node (⟨⟨some a, t1⟩, y1⟩ : KubeObject) 2 3), (3, ns_manifest_node (⟨⟨some a, t1⟩, y1⟩ : KubeObject) 3)], 4⟩ a).inode_counter) ((create_configmaps_node client now ⟨[(1, root_with_child root_node a 2 []), (2, ns_dir_node (⟨⟨some a, t1⟩, y1⟩ : KubeObject) 2 3), (3, ns_manifest_node (⟨⟨some a, t1⟩, y1⟩ : KubeObject) 3)], 4⟩ a).inode_counter + 1)).attrs) := by
    rw [@ccn_findNode_map_lt client now (⟨kvInsert 1 (root_with_child (root_with_child root_node a 2 []) b ((create_configmaps_node client now ⟨[(1, root_with_child root_node a 2 []), (2, ns_dir_node (⟨⟨some a, t1⟩, y1⟩ : KubeObject) 2 3), (3, ns_manifest_node (⟨⟨some a, t1⟩, y1⟩ : KubeObject) 3)], 4⟩ a).inode_counter) [(a, 2)]) (create_namespace_node ⟨(create_configmaps_node client now ⟨[(1, root_with_child root_node a 2 []), (2, ns_dir_node (⟨⟨some a, t1⟩, y1⟩ : KubeObject) 2 3), (3, ns_manifest_node (⟨⟨some a, t1⟩, y1⟩ : KubeObject) 3)], 4⟩ a).inodes, (create_configmaps_node client now ⟨[(1, root_with_child root_node a 2 []), (2, ns_dir_node (⟨⟨some a, t1⟩, y1⟩ : KubeObject) 2 3), (3, ns_manifest_node (⟨⟨some a, t1⟩, y1⟩ : KubeObject) 3)], 4⟩ a).inode_counter + 1⟩ ((create_configmaps_node client now ⟨[(1, root_with_child root_node a 2 []), (2, ns_dir_node (⟨⟨some a, t1⟩, y1⟩ : KubeObject) 2 3), (3, ns_manifest_node (⟨⟨some a, t1⟩, y1⟩ : KubeObject) 3)], 4⟩ a).inode_counter) (⟨⟨some b, t2⟩, y2⟩ : KubeObject)).inodes, (create_configmaps_node client now ⟨[(1, root_with_child root_node a 2 []), (2, ns_dir_node (⟨⟨some a, t1⟩, y1⟩ : KubeObject) 2 3), (3, ns_manifest_node (⟨⟨some a, t1⟩, y1⟩ : KubeObject) 3)], 4⟩ a).inode_counter + 2⟩ : KubeFilesystem) b ((create_configmaps_node client now ⟨[(1, root_with_child root_node a 2 []), (2, ns_dir_node (⟨⟨some a, t1⟩, y1⟩ : KubeObject) 2 3), (3, ns_manifest_node (⟨⟨some a, t1⟩, y1⟩ : KubeObject) 3)], 4⟩ a).inode_counter)
      (show ((create_configmaps_node client now ⟨[(1, root_with_child root_node a 2 []), (2, ns_dir_node (⟨⟨some a, t1⟩, y1⟩ : KubeObject) 2 3), (3, ns_manifest_node (⟨⟨some a, t1⟩, y1⟩ : KubeObject) 3)], 4⟩ a).inode_counter) < (create_configmaps_node client now ⟨[(1, root_with_child root_node a 2 []), (2, ns_dir_node (⟨⟨some a, t1⟩, y1⟩ : KubeObject) 2 3), (3, ns_manifest_node (⟨⟨some a, t1⟩, y1⟩ : KubeObject) 3)], 4⟩ a).inode_counter + 2 from by omega)]
    have h6i : findNode (kvInsert 1 (root_with_child (root_with_child root_node a 2 []) b ((create_configmaps_node client now ⟨[(1, root_with_child root_node a 2 []), (2, ns_dir_node (⟨⟨some a, t1⟩, y1⟩ : KubeObject) 2 3), (3, ns_manifest_node (⟨⟨some a, t1⟩, y1⟩ : KubeObject) 3)], 4⟩ a).inode_counter) [(a, 2)]) (create_namespace_node ⟨(create_configmaps_node client now ⟨[(1, root_with_child root_node a 2 []), (2, ns_dir_node (⟨⟨some a, t1⟩, y1⟩ : KubeObject) 2 3), (3, ns_manifest_node (⟨⟨some a, t1⟩, y1⟩ : KubeObject) 3)], 4⟩ a).inodes, (create_configmaps_node client now ⟨[(1, root_with_child root_node a 2 []), (2, ns_dir_node (⟨⟨some a, t1⟩, y1⟩ : KubeObject) 2 3), (3, ns_manifest_node (⟨⟨some a, t1⟩, y1⟩ : KubeObject) 3)], 4⟩ a).inode_counter + 1⟩ ((create_configmaps_node client now ⟨[(1, root_with_child root_node a 2 []), (2, ns_dir_node (⟨⟨some a, t1⟩, y1⟩ : KubeObject) 2 3), (3, ns_manifest_node (⟨⟨some a, t1⟩, y1⟩ : KubeObject) 3)], 4⟩ a).inode_counter) (⟨⟨some b, t2⟩, y2⟩ : KubeObject)).inodes) ((create_configmaps_node client now ⟨[(1, root_with_child root_node a 2 []), (2, ns_dir_node (⟨⟨some a, t1⟩, y1⟩ : KubeObject) 2 3), (3, ns_manifest_node (⟨⟨some a, t1⟩, y1⟩ : KubeObject) 3)], 4⟩ a).inode_counter) = findNode (create_namespace_node ⟨(create_configmaps_node client now ⟨[(1, root_with_child root_node a 2 []), (2, ns_dir_node (⟨⟨some a, t1⟩, y1⟩ : KubeObject) 2 3), (3, ns_manifest_node (⟨⟨some a, t1⟩, y1⟩ : KubeObject) 3)], 4⟩ a).inodes, (create_configmaps_node client now ⟨[(1, root_with_child root_node a 2 []), (2, ns_dir_node (⟨⟨some a, t1⟩, y1⟩ : KubeObject) 2 3), (3, ns_manifest_node (⟨⟨some a, t1⟩, y1⟩ : KubeObject) 3)], 4⟩ a).inode_counter + 1⟩ ((create_configmaps_node client now ⟨[(1, root_with_child root_node a 2 []), (2, ns_dir_node (⟨⟨some a, t1⟩, y1⟩ : KubeObject) 2 3), (3, ns_manifest_node (⟨⟨some a, t1⟩, y1⟩ : KubeObject) 3)], 4⟩ a).inode_counter) (⟨⟨some b, t2⟩, y2⟩ : KubeObject)).inodes ((create_configmaps_node client now ⟨[(1, root_with_child root_node a 2 []), (2, ns_dir_node (⟨⟨some a, t1⟩, y1⟩ : KubeObject) 2 3), (3, ns_manifest_node (⟨⟨some a, t1⟩, y1⟩ : KubeObject) 3)], 4⟩ a).inode_counter) := by
      rw [findNode_kvInsert, if_neg (show ¬ (((create_configmaps_node client now ⟨[(1, root_with_child root_node a 2 []), (2, ns_dir_node (⟨⟨some a, t1⟩, y1⟩ : KubeObject) 2 3), (3, ns_manifest_node (⟨⟨some a, t1⟩, y1⟩ : KubeObject) 3)], 4⟩ a).inode_counter) = 1) from by omega)]
    show Option.map _ (findNode (kvInsert 1 (root_with_child (root_with_child root_node a 2 []) b ((create_configmaps_node client now ⟨[(1, root_with_child root_node a 2 []), (2, ns_dir_node (⟨⟨some a, t1⟩, y1⟩ : KubeObject) 2 3), (3, ns_manifest_node (⟨⟨some a, t1⟩, y1⟩ : KubeObject) 3)], 4⟩ a).inode_counter) [(a, 2)]) (create_namespace_node ⟨(create_configmaps_node client now ⟨[(1, root_with_child root_node a 2 []), (2, ns_dir_node (⟨⟨some a, t1⟩, y1⟩ : KubeObject) 2 3), (3, ns_manifest_node (⟨⟨some a, t1⟩, y1⟩ : KubeObject) 3)], 4⟩ a).inodes, (create_configmaps_node client now ⟨[(1, root_with_child root_node a 2 []), (2, ns_dir_node (⟨⟨some a, t1⟩, y1⟩ : KubeObject) 2 3), (3, ns_manifest_node (⟨⟨some a, t1⟩, y1⟩ : KubeObject) 3)], 4⟩ a).inode_counter + 1⟩ ((create_configmaps_node client now ⟨[(1, root_with_child root_node a 2 []), (2, ns_dir_node (⟨⟨some a, t1⟩, y1⟩ : KubeObject) 2 3), (3, ns_manifest_node (⟨⟨some a, t1⟩, y1⟩ : KubeObject) 3)], 4⟩ a).inode_counter) (⟨⟨some b, t2⟩, y2⟩ : KubeObject)).inodes) ((create_configmaps_node client now ⟨[(1, root_with_child root_node a 2 []), (2, ns_dir_node (⟨⟨some a, t1⟩, y1⟩ : KubeObject) 2 3), (3, ns_manifest_node (⟨⟨some a, t1⟩, y1⟩ : KubeObject) 3)], 4⟩ a).inode_counter)) = _
    rw [h6i, h5i]
    rfl
  obtain ⟨n1, hn1, hn1p⟩ := Option.map_eq_some'.mp G2
  obtain ⟨n2, hn2, hn2p⟩ := Option.map_eq_some'.mp Gi2
  have hn1name : n1.name = a := by
    have hx := congrArg Prod.fst hn1p
    simpa [ns_dir_node] using hx
  have hn1attrs : n1.attrs = (ns_dir_node (⟨⟨some a, t1⟩, y1⟩ : KubeObject) 2 3).attrs := congrArg Prod.snd hn1p
  have hn1kind : n1.attrs.kind = FileType.Directory := by
    rw [hn1attrs]
    rfl
  have hn2name : n2.name = b := by
    have hx := congrArg Prod.fst hn2p
    simpa [ns_dir_node] using hx
  have hn2attrs : n2.attrs = (ns_dir_node (⟨⟨some b, t2⟩, y2⟩ : KubeObject) ((create_configmaps_node client now ⟨[(1, root_with_child root_node a 2 []), (2, ns_dir_node (⟨⟨some a, t1⟩, y1⟩ : KubeObject) 2 3), (3, ns_manifest_node (⟨⟨some a, t1⟩, y1⟩ : KubeObject) 3)], 4⟩ a).inode_counter) ((create_configmaps_node client now ⟨[(1, root_with_child root_node a 2 []), (2, ns_dir_node (⟨⟨some a, t1⟩, y1⟩ : KubeObject) 2 3), (3, ns_manifest_node (⟨⟨some a, t1⟩, y1⟩ : KubeObject) 3)], 4⟩ a).inode_counter + 1)).attrs := congrArg Prod.snd hn2p
  have hn2kind : n2.attrs.kind = FileType.Directory := by
    rw [hn2attrs]
    rfl
  have hR2kind : (root_with_child (root_with_child root_node a 2 []) b ((create_configmaps_node client now ⟨[(1, root_with_child root_node a 2 []), (2, ns_dir_node (⟨⟨some a, t1⟩, y1⟩ : KubeObject) 2 3), (3, ns_manifest_node (⟨⟨some a, t1⟩, y1⟩ : KubeObject) 3)], 4⟩ a).inode_counter) [(a, 2)]).attrs.kind = FileType.Directory := rfl
  have hperm := horder [(a, 2), (b, (create_configmaps_node client now ⟨[(1, root_with_child root_node a 2 []), (2, ns_dir_node (⟨⟨some a, t1⟩, y1⟩ : KubeObject) 2 3), (3, ns_manifest_node (⟨⟨some a, t1⟩, y1⟩ : KubeObject) 3)], 4⟩ a).inode_counter)]
  rcases perm_pair_cases hperm with hord | hord
  · refine ⟨create_configmaps_node client now (⟨kvInsert 1 (root_with_child (root_with_child root_node a 2 []) b ((create_configmaps_node client now ⟨[(1, root_with_child root_node a 2 []), (2, ns_dir_node (⟨⟨some a, t1⟩, y1⟩ : KubeObject) 2 3), (3, ns_manifest_node (⟨⟨some a, t1⟩, y1⟩ : KubeObject) 3)], 4⟩ a).inode_counter) [(a, 2)]) (create_namespace_node ⟨(create_configmaps_node client now ⟨[(1, root_with_child root_node a 2 []), (2, ns_dir_node (⟨⟨some a, t1⟩, y1⟩ : KubeObject) 2 3), (3, ns_manifest_node (⟨⟨some a, t1⟩, y1⟩ : KubeObject) 3)], 4⟩ a).inodes, (create_configmaps_node client now ⟨[(1, root_with_child root_node a 2 []), (2, ns_dir_node (⟨⟨some a, t1⟩, y1⟩ : KubeObject) 2 3), (3, ns_manifest_node (⟨⟨some a, t1⟩, y1⟩ : KubeObject) 3)], 4⟩ a).inode_counter + 1⟩ ((create_configmaps_node client now ⟨[(1, root_with_child root_node a 2 []), (2, ns_dir_node (⟨⟨some a, t1⟩, y1⟩ : KubeObject) 2 3), (3, ns_manifest_node (⟨⟨some a, t1⟩, y1⟩ : KubeObject) 3)], 4⟩ a).inode_counter) (⟨⟨some b, t2⟩, y2⟩ : KubeObject)).inodes, (create_configmaps_node client now ⟨[(1, root_with_child root_node a 2 []), (2, ns_dir_node (⟨⟨some a, t1⟩, y1⟩ : KubeObject) 2 3), (3, ns_manifest_node (⟨⟨some a, t1⟩, y1⟩ : KubeObject) 3)], 4⟩ a).inode_counter + 2⟩ : KubeFilesystem) b, (create_configmaps_node client now ⟨[(1, root_with_child root_node a 2 []), (2, ns_dir_node (⟨⟨some a, t1⟩, y1⟩ : KubeObject) 2 3), (3, ns_manifest_node (⟨⟨some a, t1⟩, y1⟩ : KubeObject) 3)], 4⟩ a).inode_counter, 2, a, (create_configmaps_node client now ⟨[(1, root_with_child root_node a 2 []), (2, ns_dir_node (⟨⟨some a, t1⟩, y1⟩ : KubeObject) 2 3), (3, ns_manifest_node (⟨⟨some a, t1⟩, y1⟩ : KubeObject) 3)], 4⟩ a).inode_counter, b, hfinal, by omega, List.Perm.refl _, ?_⟩
    have hred : readdirOrd order (create_configmaps_node client now (⟨kvInsert 1 (root_with_child (root_with_child root_node a 2 []) b ((create_configmaps_node client now ⟨[(1, root_with_child root_node a 2 []), (2, ns_dir_node (⟨⟨some a, t1⟩, y1⟩ : KubeObject) 2 3), (3, ns_manifest_node (⟨⟨some a, t1⟩, y1⟩ : KubeObject) 3)], 4⟩ a).inode_counter) [(a, 2)]) (create_namespace_node ⟨(create_configmaps_node client now ⟨[(1, root_with_child root_node a 2 []), (2, ns_dir_node (⟨⟨some a, t1⟩, y1⟩ : KubeObject) 2 3), (3, ns_manifest_node (⟨⟨some a, t1⟩, y1⟩ : KubeObject) 3)], 4⟩ a).inodes, (create_configmaps_node client now ⟨[(1, root_with_child root_node a 2 []), (2, ns_dir_node (⟨⟨some a, t1⟩, y1⟩ : KubeObject) 2 3), (3, ns_manifest_node (⟨⟨some a, t1⟩, y1⟩ : KubeObject) 3)], 4⟩ a).inode_counter + 1⟩ ((create_configmaps_node client now ⟨[(1, root_with_child root_node a 2 []), (2, ns_dir_node (⟨⟨some a, t1⟩, y1⟩ : KubeObject) 2 3), (3, ns_manifest_node (⟨⟨some a, t1⟩, y1⟩ : KubeObject) 3)], 4⟩ a).inode_counter) (⟨⟨some b, t2⟩, y2⟩ : KubeObject)).inodes, (create_configmaps_node client now ⟨[(1, root_with_child root_node a 2 []), (2, ns_dir_node (⟨⟨some a, t1⟩, y1⟩ : KubeObject) 2 3), (3, ns_manifest_node (⟨⟨some a, t1⟩, y1⟩ : KubeObject) 3)], 4⟩ a).inode_counter + 2⟩ : KubeFilesystem) b) 1 0 cap = Except.ok (addOffsets 0 0
        (([(1, FileType.Directory, "."), (1, FileType.Directory, ".."),
          (2, n1.attrs.kind, n1.name), (((create_configmaps_node client now ⟨[(1, root_with_child root_node a 2 []), (2, ns_dir_node (⟨⟨some a, t1⟩, y1⟩ : KubeObject) 2 3), (3, ns_manifest_node (⟨⟨some a, t1⟩, y1⟩ : KubeObject) 3)], 4⟩ a).inode_counter), n2.attrs.kind, n2.name)] :
          List (Nat × FileType × String)).take cap)) := by
      simp [readdirOrd, G1, hR2kind, hR2c, hord, hn1, hn2]
      rfl
    rw [hred]
    rw [List.take_of_length_le (by simpa using hcap)]
    simp [addOffsets, hn1name, hn1kind, hn2name, hn2kind]
  · refine ⟨create_configmaps_node client now (⟨kvInsert 1 (root_with_child (root_with_child root_node a 2 []) b ((create_configmaps_node client now ⟨[(1, root_with_child root_node a 2 []), (2, ns_dir_node (⟨⟨some a, t1⟩, y1⟩ : KubeObject) 2 3), (3, ns_manifest_node (⟨⟨some a, t1⟩, y1⟩ : KubeObject) 3)], 4⟩ a).inode_counter) [(a, 2)]) (create_namespace_node ⟨(create_configmaps_node client now ⟨[(1, root_with_child root_node a 2 []), (2, ns_dir_node (⟨⟨some a, t1⟩, y1⟩ : KubeObject) 2 3), (3, ns_manifest_node (⟨⟨some a, t1⟩, y1⟩ : KubeObject) 3)], 4⟩ a).inodes, (create_configmaps_node client now ⟨[(1, root_with_child root_node a 2 []), (2, ns_dir_node (⟨⟨some a, t1⟩, y1⟩ : KubeObject) 2 3), (3, ns_manifest_node (⟨⟨some a, t1⟩, y1⟩ : KubeObject) 3)], 4⟩ a).inode_counter + 1⟩ ((create_configmaps_node client now ⟨[(1, root_with_child root_node a 2 []), (2, ns_dir_node (⟨⟨some a, t1⟩, y1⟩ : KubeObject) 2 3), (3, ns_manifest_node (⟨⟨some a, t1⟩, y1⟩ : KubeObject) 3)], 4⟩ a).inode_counter) (⟨⟨some b, t2⟩, y2⟩ : KubeObject)).inodes, (create_configmaps_node client now ⟨[(1, root_with_child root_node a 2 []), (2, ns_dir_node (⟨⟨some a, t1⟩, y1⟩ : KubeObject) 2 3), (3, ns_manifest_node (⟨⟨some a, t1⟩, y1⟩ : KubeObject) 3)], 4⟩ a).inode_counter + 2⟩ : KubeFilesystem) b, (create_configmaps_node client now ⟨[(1, root_with_child root_node a 2 []), (2, ns_dir_node (⟨⟨some a, t1⟩, y1⟩ : KubeObject) 2 3), (3, ns_manifest_node (⟨⟨some a, t1⟩, y1⟩ : KubeObject) 3)], 4⟩ a).inode_counter, (create_configmaps_node client now ⟨[(1, root_with_child root_node a 2 []), (2, ns_dir_node (⟨⟨some a, t1⟩, y1⟩ : KubeObject) 2 3), (3, ns_manifest_node (⟨⟨some a, t1⟩, y1⟩ : KubeObject) 3)], 4⟩ a).inode_counter, b, 2, a, hfinal, by omega, List.Perm.swap _ _ _, ?_⟩
    have hred : readdirOrd order (create_configmaps_node client now (⟨kvInsert 1 (root_with_child (root_with_child root_node a 2 []) b ((create_configmaps_node client now ⟨[(1, root_with_child root_node a 2 []), (2, ns_dir_node (⟨⟨some a, t1⟩, y1⟩ : KubeObject) 2 3), (3, ns_manifest_node (⟨⟨some a, t1⟩, y1⟩ : KubeObject) 3)], 4⟩ a).inode_counter) [(a, 2)]) (create_namespace_node ⟨(create_configmaps_node client now ⟨[(1, root_with_child root_node a 2 []), (2, ns_dir_node (⟨⟨some a, t1⟩, y1⟩ : KubeObject) 2 3), (3, ns_manifest_node (⟨⟨some a, t1⟩, y1⟩ : KubeObject) 3)], 4⟩ a).inodes, (create_configmaps_node client now ⟨[(1, root_with_child root_node a 2 []), (2, ns_dir_node (⟨⟨some a, t1⟩, y1⟩ : KubeObject) 2 3), (3, ns_manifest_node (⟨⟨some a, t1⟩, y1⟩ : KubeObject) 3)], 4⟩ a).inode_counter + 1⟩ ((create_configmaps_node client now ⟨[(1, root_with_child root_node a 2 []), (2, ns_dir_node (⟨⟨some a, t1⟩, y1⟩ : KubeObject) 2 3), (3, ns_manifest_node (⟨⟨some a, t1⟩, y1⟩ : KubeObject) 3)], 4⟩ a).inode_counter) (⟨⟨some b, t2⟩, y2⟩ : KubeObject)).inodes, (create_configmaps_node client now ⟨[(1, root_with_child root_node a 2 []), (2, ns_dir_node (⟨⟨some a, t1⟩, y1⟩ : KubeObject) 2 3), (3, ns_manifest_node (⟨⟨some a, t1⟩, y1⟩ : KubeObject) 3)], 4⟩ a).inode_counter + 2⟩ : KubeFilesystem) b) 1 0 cap = Except.ok (addOffsets 0 0
        (([(1, FileType.Directory, "."), (1, FileType.Directory, ".."),
          (((create_configmaps_node client now ⟨[(1, root_with_child root_node a 2 []), (2, ns_dir_node (⟨⟨some a, t1⟩, y1⟩ : KubeObject) 2 3), (3, ns_manifest_node (⟨⟨some a, t1⟩, y1⟩ : KubeObject) 3)], 4⟩ a).inode_counter), n2.attrs.kind, n2.name), (2, n1.attrs.kind, n1.name)] :
          List (Nat × FileType × String)).take cap)) := by
      simp [readdirOrd, G1, hR2kind, hR2c, hord, hn1, hn2]
      rfl
    rw [hred]
    rw [List.take_of_length_le (by simpa using hcap)]
    simp [addOffsets, hn1name, hn1kind, hn2name, hn2kind]

theorem readdir_root_two_namespaces_any_order_witness :
    ∃ fs i2 k1 n1 k2 n2, KubeFilesystem.init clientB5 0 KubeFilesystem.new = (fs, none) ∧
      5 ≤ i2 ∧ List.Perm [(k1, n1), (k2, n2)] [(2, "alpha"), (i2, "beta")] ∧
      readdirOrd id fs 1 0 4 = Except.ok
        [(1, 1, FileType.Directory, "."), (1, 2, FileType.Directory, ".."),
         (k1, 3, FileType.Directory, n1), (k2, 4, FileType.Directory, n2)] :=
  readdir_root_two_namespaces_any_order clientB5 0 "alpha" "beta" (some 0) (some 0)
    [1, 2] [3] 4 id (fun l => List.Perm.refl l) (by decide) (by decide) rfl

end KubeFuse
